import Mathlib

/-!
# Color game (ESP32): state machine and roll engine of `src/main.cpp`

A shallow embedding of the control logic of `main.cpp`: the button
classifier (`buttonShortPressed`, `buttonLongPressed`), the roll engine
(`stepColor`, `stepDice`, `startRolling`, `stopAndLock`) and the polling
function `loop`, followed by the properties established about them.

Conventions of the embedding

* The globals and the function-local `static` variables of `loop` are the
  fields of `State`.  The three `static uint8_t caret` declarations of `loop`
  live in three different block scopes and are three different objects; they
  are the fields `caretLong`, `caretStartup` and `caret`.
* `uint32_t` arithmetic is arithmetic on `Nat` reduced modulo `2^32`
  (`sub32`, `add32`); `millis` reduces the time since boot to 32 bits.
* Every call of `millis()` is a separate read of the clock; a `Poll` carries
  one time per call site, together with the button level that
  `digitalRead` returns and the values that `random` returns.
* Display, LED and buzzer calls do not change the state; `loop` returns the
  list of calls it made (`Ev`) next to the new state.
-/

namespace ColorGame

/-! ## Data -/

/-- The enumeration `Mode` of the source. -/
inductive Mode where
  | MODE_COLOR
  | MODE_DICE
  deriving DecidableEq, Repr

/-- The enumeration `AppState` of the source. -/
inductive AppState where
  | STATE_STARTUP
  | STATE_SELECT
  | STATE_PLAY
  deriving DecidableEq, Repr

/-- The globals of `main.cpp` and the `static` locals of `loop`. -/
structure State where
  /-- Global `appState`. -/
  appState : AppState
  /-- Global `mode`. -/
  mode : Mode
  /-- Global `lastA` (a `char`). -/
  lastA : Char
  /-- Global `lastB`. -/
  lastB : Char
  /-- Global `lastC`. -/
  lastC : Char
  /-- Global `rolling`. -/
  rolling : Bool
  /-- Global `nextSpinMs` (`uint32_t`). -/
  nextSpinMs : Nat
  /-- Global `rollingStartMs` (`uint32_t`). -/
  rollingStartMs : Nat
  /-- Global `rA` (`uint8_t`). -/
  rA : Nat
  /-- Global `rB`. -/
  rB : Nat
  /-- Global `rC`. -/
  rC : Nat
  /-- Global `btnDownAt` (`uint32_t`). -/
  btnDownAt : Nat
  /-- Global `btnWasDown`. -/
  btnWasDown : Bool
  /-- The `static uint8_t caret` of the long-press block of `loop`. -/
  caretLong : Nat
  /-- The `static uint8_t caret` of the startup block of `loop`. -/
  caretStartup : Nat
  /-- The `static uint8_t caret` of the select block of `loop`: the one the
  Select state toggles, reads and commits. -/
  caret : Nat
  /-- The `static uint32_t lastSwap` of the select block of `loop`. -/
  lastSwap : Nat
  /-- The `static uint32_t start` of the animation block of `loop`. -/
  start : Nat
  deriving DecidableEq, Repr

/-- Calls made by `loop`, in the order they are made.  The two button
functions are recorded with the value they returned. -/
inductive Ev where
  | buttonLongPressed (r : Bool)
  | buttonShortPressed (r : Bool)
  | showSelect (c : Nat)
  | delay (ms : Nat)
  | stepColor
  | stepDice
  | renderRollingOrFinal (final : Bool)
  | startRolling
  | stopAndLock
  | celebrateOverlayResult
  deriving DecidableEq, Repr

/-- What one pass through `loop` reads from the platform. -/
structure Poll where
  /-- The value of `digitalRead(BUTTON_PIN)==LOW` in `buttonShortPressed`. -/
  down : Bool
  /-- Time since boot (ms) at the `millis()` of `buttonLongPressed`. -/
  tLong : Nat
  /-- Time at `uint32_t now = millis()` of the select block. -/
  tSelect : Nat
  /-- Time at the `millis()` of `buttonShortPressed`. -/
  tShort : Nat
  /-- Time at the `millis()` of `startRolling`. -/
  tStart : Nat
  /-- Time at `uint32_t now = millis()` of the animation block. -/
  tAnim : Nat
  /-- The value returned by the `k`-th call (k = 0, 1, 2) of `random(lo, hi)`
  in this pass. -/
  rnd : Nat → Nat → Nat → Nat

/-! ## 32-bit clock arithmetic -/

/-- The value `millis()` returns at `t` ms since boot (`uint32_t`). -/
def millis (t : Nat) : Nat := t % 4294967296

/-- The `uint32_t` difference `a - b`. -/
def sub32 (a b : Nat) : Nat := (a + (4294967296 - b % 4294967296)) % 4294967296

/-- The `uint32_t` sum `a + b`. -/
def add32 (a b : Nat) : Nat := (a + b) % 4294967296

/-! ## Helpers of the source -/

/-- The function `colorInitialOf` of the source. -/
def colorInitialOf (idx : Nat) : Char :=
  match idx with
  | 0 => 'R'
  | 1 => 'G'
  | 2 => 'B'
  | 3 => 'Y'
  | 4 => 'W'
  | 5 => 'P'
  | _ => '?'

/-- The function `stepColor`: three calls `random(0,6)`, stored in `uint8_t`. -/
def stepColor (rnd : Nat → Nat → Nat → Nat) (s : State) : State :=
  { s with rA := rnd 0 0 6 % 256, rB := rnd 1 0 6 % 256, rC := rnd 2 0 6 % 256 }

/-- The function `stepDice`: three calls `random(1,7)`, stored in `uint8_t`. -/
def stepDice (rnd : Nat → Nat → Nat → Nat) (s : State) : State :=
  { s with rA := rnd 0 1 7 % 256, rB := rnd 1 1 7 % 256, rC := rnd 2 1 7 % 256 }

/-- The function `buttonShortPressed`; `down` is the sampled button level
and `now` the value of `millis()`. -/
def buttonShortPressed (down : Bool) (now : Nat) (s : State) : Bool × State :=
  if down && !s.btnWasDown then
    (false, { s with btnWasDown := true, btnDownAt := now })
  else if !down && s.btnWasDown then
    if 20 ≤ sub32 now s.btnDownAt ∧ sub32 now s.btnDownAt < 3000 then
      (true, { s with btnWasDown := false })
    else
      (false, { s with btnWasDown := false })
  else
    (false, s)

/-- The function `buttonLongPressed`; `now` is the value of `millis()`
(read only when `btnWasDown` holds). -/
def buttonLongPressed (now : Nat) (s : State) : Bool × State :=
  if s.btnWasDown ∧ 3000 ≤ sub32 now s.btnDownAt then
    (true, { s with btnWasDown := false })
  else
    (false, s)

/-- The character `'0' + v` stored in a `char`. -/
def digitOf (v : Nat) : Char := Char.ofNat ((48 + v) % 256)

/-- The function `stopAndLock`. -/
def stopAndLock (s : State) : State × List Ev :=
  let s1 := { s with rolling := false }
  let s2 :=
    if s1.mode = Mode.MODE_COLOR then
      { s1 with lastA := colorInitialOf s1.rA, lastB := colorInitialOf s1.rB,
                lastC := colorInitialOf s1.rC }
    else
      { s1 with lastA := digitOf s1.rA, lastB := digitOf s1.rB, lastC := digitOf s1.rC }
  (s2, [Ev.stopAndLock, Ev.renderRollingOrFinal true, Ev.celebrateOverlayResult])

/-- The function `startRolling`; `now` is the value of `millis()`. -/
def startRolling (now : Nat) (s : State) : State × List Ev :=
  ({ s with rolling := true, nextSpinMs := 0, rollingStartMs := now }, [Ev.startRolling])

/-- The mode-dependent re-sample `if (mode == MODE_COLOR) stepColor(); else stepDice();`. -/
def stepMode (rnd : Nat → Nat → Nat → Nat) (s : State) : State × List Ev :=
  if s.mode = Mode.MODE_COLOR then (stepColor rnd s, [Ev.stepColor])
  else (stepDice rnd s, [Ev.stepDice])

/-- The state after `setup()` (global initialisers included). -/
def setup : State :=
  { appState := AppState.STATE_STARTUP, mode := Mode.MODE_COLOR,
    lastA := '*', lastB := '*', lastC := '*',
    rolling := false, nextSpinMs := 0, rollingStartMs := 0,
    rA := 0, rB := 0, rC := 0, btnDownAt := 0, btnWasDown := false,
    caretLong := 0, caretStartup := 0, caret := 0, lastSwap := 0, start := 0 }

/-! ## The polling function -/

/-- The startup block of `loop` (lines 329-336). -/
def loopStartup (p : Poll) (s : State) : State × List Ev :=
  let r := buttonShortPressed p.down (millis p.tShort) s
  if r.1 then
    ({ r.2 with appState := AppState.STATE_SELECT, caretStartup := 0 },
      [Ev.buttonShortPressed true, Ev.showSelect 0])
  else
    (r.2, [Ev.buttonShortPressed false])

/-- The caret timer of the select block (lines 342-345). -/
def selectSwap (now : Nat) (s : State) : State × List Ev :=
  if 2000 ≤ sub32 now s.lastSwap then
    ({ s with caret := s.caret ^^^ 1, lastSwap := now }, [Ev.showSelect (s.caret ^^^ 1)])
  else
    (s, [])

/-- The commit of the select block (lines 347-354). -/
def selectCommit (rnd : Nat → Nat → Nat → Nat) (s : State) : State × List Ev :=
  let s1 := { s with mode := if s.caret = 0 then Mode.MODE_COLOR else Mode.MODE_DICE }
  let r := stepMode rnd s1
  ({ r.1 with appState := AppState.STATE_PLAY, rolling := false },
    r.2 ++ [Ev.renderRollingOrFinal true])

/-- The select block of `loop` (lines 339-357). -/
def loopSelect (p : Poll) (s : State) : State × List Ev :=
  let w := selectSwap (millis p.tSelect) s
  let r := buttonShortPressed p.down (millis p.tShort) w.1
  if r.1 then
    let c := selectCommit p.rnd r.2
    (c.1, w.2 ++ [Ev.buttonShortPressed true] ++ c.2)
  else
    (r.2, w.2 ++ [Ev.buttonShortPressed false])

/-- The short-press handling of the play block (lines 360-368). -/
def playPress (p : Poll) (s : State) : State × List Ev :=
  let r := buttonShortPressed p.down (millis p.tShort) s
  if r.1 then
    if !r.2.rolling then
      let q := startRolling (millis p.tStart) r.2
      (q.1, [Ev.buttonShortPressed true] ++ q.2)
    else
      let q := stopAndLock r.2
      (q.1, [Ev.buttonShortPressed true] ++ q.2)
  else
    (r.2, [Ev.buttonShortPressed false])

/-- The pacing tick of the animation block (lines 373-381). -/
def spinTick (rnd : Nat → Nat → Nat → Nat) (now : Nat) (s : State) : State × List Ev :=
  if s.nextSpinMs ≤ now then
    let r := stepMode rnd s
    let start1 := if r.1.nextSpinMs = 0 then now else r.1.start
    let step := if sub32 now start1 < 800 then 70 else 110
    ({ r.1 with start := start1, nextSpinMs := add32 now step },
      r.2 ++ [Ev.renderRollingOrFinal false])
  else
    (s, [])

/-- The animation block of `loop` (lines 371-386). -/
def animate (p : Poll) (s : State) : State × List Ev :=
  if s.appState = AppState.STATE_PLAY ∧ s.rolling = true then
    let now := millis p.tAnim
    let a := spinTick p.rnd now s
    if 7000 ≤ sub32 now a.1.rollingStartMs then
      let q := stopAndLock a.1
      (q.1, a.2 ++ q.2)
    else
      a
  else
    (s, [])

/-- The play block of `loop` (lines 360-386). -/
def loopPlay (p : Poll) (s : State) : State × List Ev :=
  let r := playPress p s
  let a := animate p r.1
  (a.1, r.2 ++ a.2)

/-- The function `loop`: one poll. -/
def loop (p : Poll) (s : State) : State × List Ev :=
  if s.appState ≠ AppState.STATE_STARTUP ∧ (buttonLongPressed (millis p.tLong) s).1 = true then
    ({ (buttonLongPressed (millis p.tLong) s).2 with
        appState := AppState.STATE_SELECT, caretLong := 0 },
      [Ev.buttonLongPressed true, Ev.showSelect 0, Ev.delay 250])
  else if s.appState = AppState.STATE_STARTUP then
    loopStartup p s
  else
    let s1 := (buttonLongPressed (millis p.tLong) s).2
    if s1.appState = AppState.STATE_SELECT then
      let r := loopSelect p s1
      (r.1, Ev.buttonLongPressed false :: r.2)
    else
      let r := loopPlay p s1
      (r.1, Ev.buttonLongPressed false :: r.2)

/-- Run `loop` over a list of polls: the final state and the calls of each poll. -/
def run : List Poll → State → State × List (List Ev)
  | [], s => (s, [])
  | p :: ps, s =>
    let r := loop p s
    let t := run ps r.1
    (t.1, r.2 :: t.2)

/-- A poll at which every clock read returns `t`, the button level is `down`
and every call `random(lo, hi)` returns `lo + k % (hi - lo)` for the
poll-wide number `k`. -/
def pollAt (t : Nat) (down : Bool) (k : Nat) : Poll :=
  { down := down, tLong := t, tSelect := t, tShort := t, tStart := t, tAnim := t,
    rnd := fun _ lo hi => lo + k % (hi - lo) }

/-! ## Auxiliary definitions used in the statements -/

/-- Successive calls of `buttonShortPressed`, each given as the sampled level
and the value of `millis()`: the values returned, in order. -/
def shortRun : List (Bool × Nat) → State → List Bool
  | [], _ => []
  | c :: cs, s =>
    (buttonShortPressed c.1 c.2 s).1 :: shortRun cs (buttonShortPressed c.1 c.2 s).2

/-- The platform assumption on `random(lo, hi)`: every value returned in this
poll lies in `[lo, hi)`. -/
def RandomOk (p : Poll) : Prop :=
  ∀ k lo hi : Nat, lo < hi → lo ≤ p.rnd k lo hi ∧ p.rnd k lo hi < hi

/-- The three values lie in the domain of the mode: `0..5` in Color mode,
`1..6` in Dice mode. -/
def InDomain (s : State) : Prop :=
  (s.mode = Mode.MODE_COLOR → s.rA ≤ 5 ∧ s.rB ≤ 5 ∧ s.rC ≤ 5) ∧
  (s.mode = Mode.MODE_DICE →
    (1 ≤ s.rA ∧ s.rA ≤ 6) ∧ (1 ≤ s.rB ∧ s.rB ≤ 6) ∧ (1 ≤ s.rC ∧ s.rC ≤ 6))

instance instDecidableInDomain (s : State) : Decidable (InDomain s) := by
  unfold InDomain
  infer_instance

/-- Number of runs of `stopAndLock` in the calls of one poll. -/
def lockCount (l : List Ev) : Nat := l.count Ev.stopAndLock

/-- No button function returned `true` in the calls of one poll. -/
def NoPress (l : List Ev) : Prop :=
  Ev.buttonLongPressed true ∉ l ∧ Ev.buttonShortPressed true ∉ l

instance instDecidableNoPress (l : List Ev) : Decidable (NoPress l) := by
  unfold NoPress
  infer_instance

/-- The lock schedule the auto-lock rule prescribes for a roll started at `t0`
(a value of `millis()`): no lock on the polls whose animation clock `now` has
`now - t0 < 7000`, one lock on the first poll with `now - t0 ≥ 7000`, none on
the polls after it. -/
def autoLockAt (t0 : Nat) : List Poll → List Nat
  | [] => []
  | p :: ps =>
    if 7000 ≤ sub32 (millis p.tAnim) t0 then 1 :: List.replicate ps.length 0
    else 0 :: autoLockAt t0 ps

/-- The initials of the colours `0..5`, from the table `COLORS`. -/
def colorInitials : List Char := ['R', 'G', 'B', 'Y', 'W', 'P']

/-- The glyph `c` is the digit character `'1'..'6'` of numeric value `v`. -/
def IsDigitOf (c : Char) (v : Nat) : Prop :=
  49 ≤ c.toNat ∧ c.toNat ≤ 54 ∧ c.toNat = 48 + v

instance instDecidableIsDigitOf (c : Char) (v : Nat) : Decidable (IsDigitOf c v) := by
  unfold IsDigitOf
  infer_instance

/-- The glyph `c` is the initial of colour `v` of the table, not the fallback `'?'`. -/
def IsInitialOf (c : Char) (v : Nat) : Prop :=
  colorInitials[v]? = some c ∧ c ≠ '?'

instance instDecidableIsInitialOf (c : Char) (v : Nat) : Decidable (IsInitialOf c v) := by
  unfold IsInitialOf
  infer_instance

/-- The state after the polls `ps`, from `setup`. -/
def stateAfter (ps : List Poll) : State := (run ps setup).1

/-- The three values a re-sample draws in mode `m`, from the values `rnd`
returned by `random`. -/
def sampled (rnd : Nat → Nat → Nat → Nat) (m : Mode) : Nat × Nat × Nat :=
  if m = Mode.MODE_COLOR then (rnd 0 0 6 % 256, rnd 1 0 6 % 256, rnd 2 0 6 % 256)
  else (rnd 0 1 7 % 256, rnd 1 1 7 % 256, rnd 2 1 7 % 256)

/-- The three current values of a state. -/
def values (s : State) : Nat × Nat × Nat := (s.rA, s.rB, s.rC)

/-! ## Concrete poll sequences -/

/-- Whether `buttonLongPressed`, respectively `buttonShortPressed`, returned
`true` among the calls of one poll. -/
def pressFlags (l : List Ev) : Bool × Bool :=
  (l.contains (Ev.buttonLongPressed true), l.contains (Ev.buttonShortPressed true))

/-- Boot, a 50 ms press that leaves Startup, a 50 ms press that commits Color:
the device is in Play, not rolling. -/
def bootToPlay : List Poll :=
  [pollAt 100 true 0, pollAt 150 false 0, pollAt 300 true 0, pollAt 350 false 0]

/-- In Play, the button goes down at 1000 ms and stays down until it is
sampled up at 4500 ms: one continuous hold of 3500 ms.  The poll at 4000 ms is
followed by the `delay(250)` of the long-press branch. -/
def longHold : List Poll :=
  bootToPlay ++ [pollAt 1000 true 0, pollAt 2000 true 0, pollAt 3000 true 0,
    pollAt 4000 true 0, pollAt 4250 true 0, pollAt 4500 false 0]

/-- In Play, the button goes down at 1000 ms and stays down until it is
sampled up at 7600 ms: one continuous hold of 6600 ms. -/
def longerHold : List Poll :=
  bootToPlay ++ [pollAt 1000 true 0, pollAt 4000 true 0, pollAt 4250 true 0,
    pollAt 7250 true 0, pollAt 7500 true 0, pollAt 7600 false 0]

/-- A roll started by a short press released at 1000 ms, where the clock
advances from 1000 to 1001 between the `millis()` of `startRolling` and the
`millis()` of the animation block of the same pass; then polls every 100 ms
with the button up, the last one at 1700 ms. -/
def skewedRoll : List Poll :=
  bootToPlay ++ [pollAt 900 true 0, { pollAt 1000 false 1 with tAnim := 1001 },
    pollAt 1100 false 2, pollAt 1200 false 3, pollAt 1300 false 4, pollAt 1400 false 5,
    pollAt 1500 false 6, pollAt 1600 false 7, pollAt 1700 false 8]

/-- A roll started 1000 ms before the 32-bit clock wraps (every clock read of a
poll returns the same time), ticking about every 100 ms; the tick 110 ms before
the wrap sets `nextSpinMs` to `now + 110 = 0`. -/
def wrapRoll : List Poll :=
  bootToPlay ++ [pollAt 4294966196 true 0, pollAt 4294966296 false 1,
    pollAt 4294966396 false 2, pollAt 4294966496 false 3, pollAt 4294966596 false 4,
    pollAt 4294966696 false 5, pollAt 4294966796 false 6, pollAt 4294966896 false 7,
    pollAt 4294966996 false 8, pollAt 4294967076 false 9, pollAt 4294967186 false 10]

/-- Boot into Select at 150 ms; the button goes down at 500 ms and is sampled
down on every poll up to 3750 ms.  The poll at 3500 ms is followed by the
`delay(250)` of the long-press branch. -/
def selectHold : List Poll :=
  [pollAt 100 true 0, pollAt 150 false 0, pollAt 500 true 0, pollAt 1500 true 0,
   pollAt 2500 true 0, pollAt 3500 true 0, pollAt 3750 true 0]

/-- Boot, then a first press at 5000 ms released at 5100 ms: Select is entered
at 5100 ms. -/
def lateEntry : List Poll := [pollAt 5000 true 0, pollAt 5100 false 0]

/-- Boot into Select, the caret toggles to Dice at 2000 ms, a press commits
Dice, a press starts a roll at 2350 ms, and the button goes down again at
3000 ms and is held while the roll runs. -/
def rollThenHold : List Poll :=
  [pollAt 100 true 0, pollAt 150 false 0, pollAt 2000 false 0, pollAt 2100 true 0,
   pollAt 2150 false 0, pollAt 2300 true 0, pollAt 2350 false 1, pollAt 3000 true 2,
   pollAt 4000 true 3, pollAt 5000 true 4]

/-- Boot into Select at 150 ms with the caret on Color; the button goes down
at 1990 ms. -/
def pressAtSwap : List Poll := [pollAt 100 true 0, pollAt 150 false 0, pollAt 1990 true 0]

/-- In Play, not rolling, the button goes down at 900 ms. -/
def pressInPlay : List Poll := bootToPlay ++ [pollAt 900 true 0]

/-! ## Basic facts -/

theorem sub32_self (a : Nat) : sub32 a a = 0 := by
  unfold sub32; omega

theorem sub32_millis (t0 t1 : Nat) (h : t0 ≤ t1) (h2 : t1 - t0 < 4294967296) :
    sub32 (millis t1) (millis t0) = t1 - t0 := by
  unfold sub32 millis; omega

theorem buttonLongPressed_false (now : Nat) (s : State)
    (h : (buttonLongPressed now s).1 = false) : (buttonLongPressed now s).2 = s := by
  unfold buttonLongPressed at h ⊢
  split_ifs at h ⊢
  rfl

theorem buttonShortPressed_iff (down : Bool) (now : Nat) (s : State) :
    (buttonShortPressed down now s).1 = true ↔
      (down = false ∧ s.btnWasDown = true ∧ 20 ≤ sub32 now s.btnDownAt ∧
        sub32 now s.btnDownAt < 3000) := by
  unfold buttonShortPressed
  cases down <;> cases hb : s.btnWasDown <;> simp
  split_ifs <;> simp_all

theorem shortRun_held (ts : List Nat) (rest : List (Bool × Nat)) (s : State)
    (h : s.btnWasDown = true) :
    shortRun (ts.map (fun t => (true, t)) ++ rest) s
      = List.replicate ts.length false ++ shortRun rest s := by
  induction ts with
  | nil => simp
  | cons t ts ih =>
    simp only [List.map_cons, List.cons_append, shortRun, List.length_cons,
      List.replicate_succ]
    have h1 : buttonShortPressed true t s = (false, s) := by
      simp [buttonShortPressed, h]
    rw [h1]
    simp [ih]

theorem shortRun_up (ts : List Nat) (s : State) (h : s.btnWasDown = false) :
    shortRun (ts.map (fun t => (false, t))) s = List.replicate ts.length false := by
  induction ts with
  | nil => simp [shortRun]
  | cons t ts ih =>
    simp only [List.map_cons, shortRun, List.length_cons, List.replicate_succ]
    have h1 : buttonShortPressed false t s = (false, s) := by
      simp [buttonShortPressed, h]
    rw [h1]
    simp [ih]


/-! ## Frame lemmas and the branches of `loop` -/

/-- The function `buttonShortPressed` changes only the latch and the latched time. -/
@[simp]
theorem buttonShortPressed_frame (down : Bool) (now : Nat) (s : State) :
    ((buttonShortPressed down now s).2).appState = s.appState ∧
    ((buttonShortPressed down now s).2).mode = s.mode ∧
    ((buttonShortPressed down now s).2).lastA = s.lastA ∧
    ((buttonShortPressed down now s).2).lastB = s.lastB ∧
    ((buttonShortPressed down now s).2).lastC = s.lastC ∧
    ((buttonShortPressed down now s).2).rolling = s.rolling ∧
    ((buttonShortPressed down now s).2).nextSpinMs = s.nextSpinMs ∧
    ((buttonShortPressed down now s).2).rollingStartMs = s.rollingStartMs ∧
    ((buttonShortPressed down now s).2).rA = s.rA ∧
    ((buttonShortPressed down now s).2).rB = s.rB ∧
    ((buttonShortPressed down now s).2).rC = s.rC ∧
    ((buttonShortPressed down now s).2).caretLong = s.caretLong ∧
    ((buttonShortPressed down now s).2).caretStartup = s.caretStartup ∧
    ((buttonShortPressed down now s).2).caret = s.caret ∧
    ((buttonShortPressed down now s).2).lastSwap = s.lastSwap ∧
    ((buttonShortPressed down now s).2).start = s.start := by
  unfold buttonShortPressed
  split_ifs <;> simp

/-- The function `buttonLongPressed` changes only the latch. -/
@[simp]
theorem buttonLongPressed_frame (now : Nat) (s : State) :
    ((buttonLongPressed now s).2).appState = s.appState ∧
    ((buttonLongPressed now s).2).mode = s.mode ∧
    ((buttonLongPressed now s).2).lastA = s.lastA ∧
    ((buttonLongPressed now s).2).lastB = s.lastB ∧
    ((buttonLongPressed now s).2).lastC = s.lastC ∧
    ((buttonLongPressed now s).2).rolling = s.rolling ∧
    ((buttonLongPressed now s).2).nextSpinMs = s.nextSpinMs ∧
    ((buttonLongPressed now s).2).rollingStartMs = s.rollingStartMs ∧
    ((buttonLongPressed now s).2).rA = s.rA ∧
    ((buttonLongPressed now s).2).rB = s.rB ∧
    ((buttonLongPressed now s).2).rC = s.rC ∧
    ((buttonLongPressed now s).2).btnDownAt = s.btnDownAt ∧
    ((buttonLongPressed now s).2).caretLong = s.caretLong ∧
    ((buttonLongPressed now s).2).caretStartup = s.caretStartup ∧
    ((buttonLongPressed now s).2).caret = s.caret ∧
    ((buttonLongPressed now s).2).lastSwap = s.lastSwap ∧
    ((buttonLongPressed now s).2).start = s.start := by
  unfold buttonLongPressed
  split_ifs <;> simp

/-- The re-sample changes only the three values. -/
@[simp]
theorem stepMode_frame (rnd : Nat → Nat → Nat → Nat) (s : State) :
    ((stepMode rnd s).1).appState = s.appState ∧
    ((stepMode rnd s).1).mode = s.mode ∧
    ((stepMode rnd s).1).lastA = s.lastA ∧
    ((stepMode rnd s).1).lastB = s.lastB ∧
    ((stepMode rnd s).1).lastC = s.lastC ∧
    ((stepMode rnd s).1).rolling = s.rolling ∧
    ((stepMode rnd s).1).nextSpinMs = s.nextSpinMs ∧
    ((stepMode rnd s).1).rollingStartMs = s.rollingStartMs ∧
    ((stepMode rnd s).1).btnDownAt = s.btnDownAt ∧
    ((stepMode rnd s).1).btnWasDown = s.btnWasDown ∧
    ((stepMode rnd s).1).caretLong = s.caretLong ∧
    ((stepMode rnd s).1).caretStartup = s.caretStartup ∧
    ((stepMode rnd s).1).caret = s.caret ∧
    ((stepMode rnd s).1).lastSwap = s.lastSwap ∧
    ((stepMode rnd s).1).start = s.start := by
  unfold stepMode stepColor stepDice
  split_ifs <;> simp

/-- The pacing tick changes only the three values, `start` and `nextSpinMs`. -/
@[simp]
theorem spinTick_frame (rnd : Nat → Nat → Nat → Nat) (now : Nat) (s : State) :
    ((spinTick rnd now s).1).appState = s.appState ∧
    ((spinTick rnd now s).1).mode = s.mode ∧
    ((spinTick rnd now s).1).lastA = s.lastA ∧
    ((spinTick rnd now s).1).lastB = s.lastB ∧
    ((spinTick rnd now s).1).lastC = s.lastC ∧
    ((spinTick rnd now s).1).rolling = s.rolling ∧
    ((spinTick rnd now s).1).rollingStartMs = s.rollingStartMs ∧
    ((spinTick rnd now s).1).btnDownAt = s.btnDownAt ∧
    ((spinTick rnd now s).1).btnWasDown = s.btnWasDown ∧
    ((spinTick rnd now s).1).caretLong = s.caretLong ∧
    ((spinTick rnd now s).1).caretStartup = s.caretStartup ∧
    ((spinTick rnd now s).1).caret = s.caret ∧
    ((spinTick rnd now s).1).lastSwap = s.lastSwap := by
  unfold spinTick
  split_ifs <;> simp

/-- The function `stopAndLock` changes only `rolling` and the three summary glyphs. -/
@[simp]
theorem stopAndLock_frame (s : State) :
    ((stopAndLock s).1).appState = s.appState ∧
    ((stopAndLock s).1).mode = s.mode ∧
    ((stopAndLock s).1).nextSpinMs = s.nextSpinMs ∧
    ((stopAndLock s).1).rollingStartMs = s.rollingStartMs ∧
    ((stopAndLock s).1).rA = s.rA ∧
    ((stopAndLock s).1).rB = s.rB ∧
    ((stopAndLock s).1).rC = s.rC ∧
    ((stopAndLock s).1).btnDownAt = s.btnDownAt ∧
    ((stopAndLock s).1).btnWasDown = s.btnWasDown ∧
    ((stopAndLock s).1).caretLong = s.caretLong ∧
    ((stopAndLock s).1).caretStartup = s.caretStartup ∧
    ((stopAndLock s).1).caret = s.caret ∧
    ((stopAndLock s).1).lastSwap = s.lastSwap ∧
    ((stopAndLock s).1).start = s.start := by
  unfold stopAndLock
  simp only
  split_ifs <;> simp

/-- The caret timer changes only `caret` and `lastSwap`. -/
@[simp]
theorem selectSwap_frame (now : Nat) (s : State) :
    ((selectSwap now s).1).appState = s.appState ∧
    ((selectSwap now s).1).mode = s.mode ∧
    ((selectSwap now s).1).lastA = s.lastA ∧
    ((selectSwap now s).1).lastB = s.lastB ∧
    ((selectSwap now s).1).lastC = s.lastC ∧
    ((selectSwap now s).1).rolling = s.rolling ∧
    ((selectSwap now s).1).nextSpinMs = s.nextSpinMs ∧
    ((selectSwap now s).1).rollingStartMs = s.rollingStartMs ∧
    ((selectSwap now s).1).rA = s.rA ∧
    ((selectSwap now s).1).rB = s.rB ∧
    ((selectSwap now s).1).rC = s.rC ∧
    ((selectSwap now s).1).btnDownAt = s.btnDownAt ∧
    ((selectSwap now s).1).btnWasDown = s.btnWasDown ∧
    ((selectSwap now s).1).caretLong = s.caretLong ∧
    ((selectSwap now s).1).caretStartup = s.caretStartup ∧
    ((selectSwap now s).1).start = s.start := by
  unfold selectSwap
  split_ifs <;> simp

@[simp]
theorem stopAndLock_rolling (s : State) : (stopAndLock s).1.rolling = false := by
  unfold stopAndLock
  simp only
  split_ifs <;> rfl

@[simp]
theorem stopAndLock_log (s : State) :
    (stopAndLock s).2 =
      [Ev.stopAndLock, Ev.renderRollingOrFinal true, Ev.celebrateOverlayResult] := rfl

theorem stepMode_log (rnd : Nat → Nat → Nat → Nat) (s : State) :
    (stepMode rnd s).2 = [Ev.stepColor] ∨ (stepMode rnd s).2 = [Ev.stepDice] := by
  unfold stepMode
  split_ifs
  · exact Or.inl rfl
  · exact Or.inr rfl

theorem spinTick_due (rnd : Nat → Nat → Nat → Nat) (now : Nat) (s : State)
    (h : s.nextSpinMs ≤ now) :
    spinTick rnd now s =
      ({ (stepMode rnd s).1 with
          start := if s.nextSpinMs = 0 then now else s.start,
          nextSpinMs := add32 now
            (if sub32 now (if s.nextSpinMs = 0 then now else s.start) < 800 then 70 else 110) },
        (stepMode rnd s).2 ++ [Ev.renderRollingOrFinal false]) := by
  unfold spinTick
  rw [if_pos h]
  simp

theorem spinTick_wait (rnd : Nat → Nat → Nat → Nat) (now : Nat) (s : State)
    (h : ¬ s.nextSpinMs ≤ now) : spinTick rnd now s = (s, []) := by
  unfold spinTick
  rw [if_neg h]

theorem spinTick_log (rnd : Nat → Nat → Nat → Nat) (now : Nat) (s : State) :
    (spinTick rnd now s).2 = [] ∨
      (spinTick rnd now s).2 = [Ev.stepColor, Ev.renderRollingOrFinal false] ∨
      (spinTick rnd now s).2 = [Ev.stepDice, Ev.renderRollingOrFinal false] := by
  by_cases h : s.nextSpinMs ≤ now
  · rw [spinTick_due rnd now s h]
    rcases stepMode_log rnd s with hl | hl <;> simp [hl]
  · rw [spinTick_wait rnd now s h]
    exact Or.inl rfl

theorem animate_idle (p : Poll) (s : State)
    (h : ¬ (s.appState = AppState.STATE_PLAY ∧ s.rolling = true)) : animate p s = (s, []) := by
  unfold animate
  rw [if_neg h]

theorem animate_rolling (p : Poll) (s : State)
    (h1 : s.appState = AppState.STATE_PLAY) (h2 : s.rolling = true) :
    animate p s =
      if 7000 ≤ sub32 (millis p.tAnim) s.rollingStartMs then
        ((stopAndLock (spinTick p.rnd (millis p.tAnim) s).1).1,
          (spinTick p.rnd (millis p.tAnim) s).2 ++
            [Ev.stopAndLock, Ev.renderRollingOrFinal true, Ev.celebrateOverlayResult])
      else spinTick p.rnd (millis p.tAnim) s := by
  unfold animate
  rw [if_pos ⟨h1, h2⟩]
  simp

theorem animate_events (p : Poll) (s : State) (b : Bool) :
    Ev.buttonShortPressed b ∉ (animate p s).2 ∧ Ev.buttonLongPressed b ∉ (animate p s).2 := by
  by_cases h : s.appState = AppState.STATE_PLAY ∧ s.rolling = true
  · rw [animate_rolling p s h.1 h.2]
    split_ifs <;> rcases spinTick_log p.rnd (millis p.tAnim) s with hl | hl | hl <;> simp [hl]
  · rw [animate_idle p s h]
    simp

theorem loop_long (p : Poll) (s : State) (h0 : s.appState ≠ AppState.STATE_STARTUP)
    (h : (buttonLongPressed (millis p.tLong) s).1 = true) :
    loop p s = ({ (buttonLongPressed (millis p.tLong) s).2 with
        appState := AppState.STATE_SELECT, caretLong := 0 },
      [Ev.buttonLongPressed true, Ev.showSelect 0, Ev.delay 250]) := by
  simp [loop, h0, h]

theorem loop_play (p : Poll) (s : State) (h0 : s.appState = AppState.STATE_PLAY)
    (h : (buttonLongPressed (millis p.tLong) s).1 = false) :
    loop p s = ((loopPlay p s).1, Ev.buttonLongPressed false :: (loopPlay p s).2) := by
  have h2 := buttonLongPressed_false _ _ h
  simp [loop, h0, h, h2]

theorem loop_select (p : Poll) (s : State) (h0 : s.appState = AppState.STATE_SELECT)
    (h : (buttonLongPressed (millis p.tLong) s).1 = false) :
    loop p s = ((loopSelect p s).1, Ev.buttonLongPressed false :: (loopSelect p s).2) := by
  have h2 := buttonLongPressed_false _ _ h
  simp [loop, h0, h, h2]

theorem loop_startup (p : Poll) (s : State) (h0 : s.appState = AppState.STATE_STARTUP) :
    loop p s = loopStartup p s := by
  simp [loop, h0]

theorem playPress_none (p : Poll) (s : State)
    (h : (buttonShortPressed p.down (millis p.tShort) s).1 = false) :
    playPress p s = ((buttonShortPressed p.down (millis p.tShort) s).2,
      [Ev.buttonShortPressed false]) := by
  simp [playPress, h]

theorem playPress_start (p : Poll) (s : State)
    (h : (buttonShortPressed p.down (millis p.tShort) s).1 = true) (hr : s.rolling = false) :
    playPress p s = ((startRolling (millis p.tStart) (buttonShortPressed p.down (millis p.tShort) s).2).1,
      [Ev.buttonShortPressed true, Ev.startRolling]) := by
  simp [playPress, h, hr, startRolling]

theorem playPress_stop (p : Poll) (s : State)
    (h : (buttonShortPressed p.down (millis p.tShort) s).1 = true) (hr : s.rolling = true) :
    playPress p s = ((stopAndLock (buttonShortPressed p.down (millis p.tShort) s).2).1,
      [Ev.buttonShortPressed true, Ev.stopAndLock, Ev.renderRollingOrFinal true,
        Ev.celebrateOverlayResult]) := by
  simp [playPress, h, hr]

theorem loopPlay_eq (p : Poll) (s : State) :
    loopPlay p s = ((animate p (playPress p s).1).1,
      (playPress p s).2 ++ (animate p (playPress p s).1).2) := rfl

/-! ## The select and startup blocks -/

theorem loopStartup_press (p : Poll) (s : State)
    (h : (buttonShortPressed p.down (millis p.tShort) s).1 = true) :
    loopStartup p s =
      ({ (buttonShortPressed p.down (millis p.tShort) s).2 with
          appState := AppState.STATE_SELECT, caretStartup := 0 },
        [Ev.buttonShortPressed true, Ev.showSelect 0]) := by
  simp [loopStartup, h]

theorem loopStartup_none (p : Poll) (s : State)
    (h : (buttonShortPressed p.down (millis p.tShort) s).1 = false) :
    loopStartup p s =
      ((buttonShortPressed p.down (millis p.tShort) s).2, [Ev.buttonShortPressed false]) := by
  simp [loopStartup, h]

theorem selectSwap_due (now : Nat) (s : State) (h : 2000 ≤ sub32 now s.lastSwap) :
    selectSwap now s =
      ({ s with caret := s.caret ^^^ 1, lastSwap := now }, [Ev.showSelect (s.caret ^^^ 1)]) := by
  unfold selectSwap
  rw [if_pos h]

theorem selectSwap_wait (now : Nat) (s : State) (h : ¬ 2000 ≤ sub32 now s.lastSwap) :
    selectSwap now s = (s, []) := by
  unfold selectSwap
  rw [if_neg h]

theorem selectSwap_log (now : Nat) (s : State) :
    (selectSwap now s).2 = [] ∨ (selectSwap now s).2 = [Ev.showSelect (s.caret ^^^ 1)] := by
  by_cases h : 2000 ≤ sub32 now s.lastSwap
  · rw [selectSwap_due now s h]
    exact Or.inr rfl
  · rw [selectSwap_wait now s h]
    exact Or.inl rfl

theorem loopSelect_commit (p : Poll) (s : State)
    (h : (buttonShortPressed p.down (millis p.tShort) (selectSwap (millis p.tSelect) s).1).1
      = true) :
    loopSelect p s =
      ((selectCommit p.rnd
          (buttonShortPressed p.down (millis p.tShort) (selectSwap (millis p.tSelect) s).1).2).1,
        (selectSwap (millis p.tSelect) s).2 ++ [Ev.buttonShortPressed true] ++
          (selectCommit p.rnd
            (buttonShortPressed p.down (millis p.tShort)
              (selectSwap (millis p.tSelect) s).1).2).2) := by
  simp [loopSelect, h]

theorem loopSelect_stay (p : Poll) (s : State)
    (h : (buttonShortPressed p.down (millis p.tShort) (selectSwap (millis p.tSelect) s).1).1
      = false) :
    loopSelect p s =
      ((buttonShortPressed p.down (millis p.tShort) (selectSwap (millis p.tSelect) s).1).2,
        (selectSwap (millis p.tSelect) s).2 ++ [Ev.buttonShortPressed false]) := by
  simp [loopSelect, h]

theorem selectCommit_log (rnd : Nat → Nat → Nat → Nat) (s : State) :
    (selectCommit rnd s).2 = [Ev.stepColor, Ev.renderRollingOrFinal true] ∨
      (selectCommit rnd s).2 = [Ev.stepDice, Ev.renderRollingOrFinal true] := by
  unfold selectCommit
  simp only
  rcases stepMode_log rnd
    { s with mode := if s.caret = 0 then Mode.MODE_COLOR else Mode.MODE_DICE } with h | h
  · left
    rw [h]
    rfl
  · right
    rw [h]
    rfl

theorem selectCommit_state (rnd : Nat → Nat → Nat → Nat) (s : State) :
    (selectCommit rnd s).1.appState = AppState.STATE_PLAY ∧
    (selectCommit rnd s).1.rolling = false ∧
    (selectCommit rnd s).1.mode = (if s.caret = 0 then Mode.MODE_COLOR else Mode.MODE_DICE) ∧
    (selectCommit rnd s).1.caret = s.caret ∧
    (selectCommit rnd s).1.lastSwap = s.lastSwap := by
  unfold selectCommit
  simp

theorem buttonShortPressed_congr (down : Bool) (now : Nat) (s t : State)
    (h1 : s.btnWasDown = t.btnWasDown) (h2 : s.btnDownAt = t.btnDownAt) :
    (buttonShortPressed down now s).1 = (buttonShortPressed down now t).1 := by
  rw [Bool.eq_iff_iff, buttonShortPressed_iff, buttonShortPressed_iff, h1, h2]

/-- The short-press result in the select block does not depend on the caret timer. -/
theorem buttonShortPressed_selectSwap (down : Bool) (now t : Nat) (s : State) :
    (buttonShortPressed down now (selectSwap t s).1).1 = (buttonShortPressed down now s).1 :=
  buttonShortPressed_congr down now _ s (by simp) (by simp)

theorem loopSelect_noLong (p : Poll) (s : State) (b : Bool) :
    Ev.buttonLongPressed b ∉ (loopSelect p s).2 := by
  cases h : (buttonShortPressed p.down (millis p.tShort) (selectSwap (millis p.tSelect) s).1).1
  · rw [loopSelect_stay p s h]
    rcases selectSwap_log (millis p.tSelect) s with hl | hl <;> simp [hl]
  · rw [loopSelect_commit p s h]
    rcases selectSwap_log (millis p.tSelect) s with hl | hl <;>
      rcases selectCommit_log p.rnd
        (buttonShortPressed p.down (millis p.tShort) (selectSwap (millis p.tSelect) s).1).2
        with hc | hc <;> simp [hl, hc]

theorem playPress_noLong (p : Poll) (s : State) (b : Bool) :
    Ev.buttonLongPressed b ∉ (playPress p s).2 := by
  cases h : (buttonShortPressed p.down (millis p.tShort) s).1
  · rw [playPress_none p s h]
    simp
  · cases hr : s.rolling
    · rw [playPress_start p s h hr]
      simp
    · rw [playPress_stop p s h hr]
      simp

theorem loopPlay_noLong (p : Poll) (s : State) (b : Bool) :
    Ev.buttonLongPressed b ∉ (loopPlay p s).2 := by
  rw [loopPlay_eq]
  simp only [List.mem_append, not_or]
  exact ⟨playPress_noLong p s b, (animate_events p _ b).2⟩

theorem loopStartup_noLong (p : Poll) (s : State) (b : Bool) :
    Ev.buttonLongPressed b ∉ (loopStartup p s).2 := by
  cases h : (buttonShortPressed p.down (millis p.tShort) s).1
  · rw [loopStartup_none p s h]
    simp
  · rw [loopStartup_press p s h]
    simp

/-- `buttonLongPressed` returned `true` on a poll only outside Startup, and then
the poll is the long-press branch. -/
theorem long_mem (p : Poll) (s : State) (h : Ev.buttonLongPressed true ∈ (loop p s).2) :
    s.appState ≠ AppState.STATE_STARTUP ∧ (buttonLongPressed (millis p.tLong) s).1 = true := by
  by_cases h0 : s.appState = AppState.STATE_STARTUP
  · rw [loop_startup p s h0] at h
    exact absurd h (loopStartup_noLong p s true)
  · refine ⟨h0, ?_⟩
    by_contra hl
    have hl2 : (buttonLongPressed (millis p.tLong) s).1 = false := by simpa using hl
    cases ha : s.appState
    · exact h0 ha
    · rw [loop_select p s ha hl2] at h
      simp only [List.mem_cons] at h
      rcases h with h | h
      · cases h
      · exact loopSelect_noLong p s true h
    · rw [loop_play p s ha hl2] at h
      simp only [List.mem_cons] at h
      rcases h with h | h
      · cases h
      · exact loopPlay_noLong p s true h

/-- A Select poll on which `buttonLongPressed` does not return `true`. -/
theorem loop_select_of_not_long (p : Poll) (s : State) (hS : s.appState = AppState.STATE_SELECT)
    (hl : Ev.buttonLongPressed true ∉ (loop p s).2) :
    loop p s = ((loopSelect p s).1, Ev.buttonLongPressed false :: (loopSelect p s).2) := by
  have hne : s.appState ≠ AppState.STATE_STARTUP := by rw [hS]; decide
  by_cases h : (buttonLongPressed (millis p.tLong) s).1 = true
  · rw [loop_long p s hne h] at hl
    simp at hl
  · exact loop_select p s hS (by simpa using h)

theorem loopSelect_short_mem (p : Poll) (s : State)
    (h : Ev.buttonShortPressed true ∈ (loopSelect p s).2) :
    (buttonShortPressed p.down (millis p.tShort) (selectSwap (millis p.tSelect) s).1).1
      = true := by
  by_contra hb
  have hb2 : (buttonShortPressed p.down (millis p.tShort)
      (selectSwap (millis p.tSelect) s).1).1 = false := by simpa using hb
  rw [loopSelect_stay p s hb2] at h
  rcases selectSwap_log (millis p.tSelect) s with hl | hl <;> simp [hl] at h

theorem short_mem_iff (p : Poll) (s : State) :
    Ev.buttonShortPressed true ∈ (loop p s).2 ↔
      (Ev.buttonLongPressed true ∉ (loop p s).2 ∧
        (buttonShortPressed p.down (millis p.tShort) s).1 = true) := by
  by_cases h0 : s.appState = AppState.STATE_STARTUP
  · rw [loop_startup p s h0]
    cases h : (buttonShortPressed p.down (millis p.tShort) s).1
    · rw [loopStartup_none p s h]
      simp
    · rw [loopStartup_press p s h]
      simp
  · by_cases hl : (buttonLongPressed (millis p.tLong) s).1 = true
    · rw [loop_long p s h0 hl]
      simp
    · have hl2 : (buttonLongPressed (millis p.tLong) s).1 = false := by simpa using hl
      cases ha : s.appState
      · exact absurd ha h0
      · rw [loop_select p s ha hl2]
        have hn := loopSelect_noLong p s true
        have hw := buttonShortPressed_selectSwap p.down (millis p.tShort) (millis p.tSelect) s
        cases h : (buttonShortPressed p.down (millis p.tShort)
            (selectSwap (millis p.tSelect) s).1).1
        · have hs : Ev.buttonShortPressed true ∉ (loopSelect p s).2 := by
            intro hm
            rw [loopSelect_short_mem p s hm] at h
            cases h
          rw [h] at hw
          simp [hs, ← hw]
        · have hs : Ev.buttonShortPressed true ∈ (loopSelect p s).2 := by
            rw [loopSelect_commit p s h]
            simp
          rw [h] at hw
          simp [hs, hn, ← hw]
      · rw [loop_play p s ha hl2]
        have hn := loopPlay_noLong p s true
        have ha2 := (animate_events p (playPress p s).1 true).1
        rw [loopPlay_eq] at hn ⊢
        cases h : (buttonShortPressed p.down (millis p.tShort) s).1
        · rw [playPress_none p s h] at hn ha2 ⊢
          simp at hn ⊢
          exact ha2
        · cases hr : s.rolling
          · rw [playPress_start p s h hr] at hn ⊢
            simp at hn ⊢
            exact hn
          · rw [playPress_stop p s h hr] at hn ⊢
            simp at hn ⊢
            exact hn

/-! ## The button classifier -/

/-- The classifier on its own latch: `buttonShortPressed` returns `true` exactly
when the button is sampled released while the latch `btnWasDown` is set and `20 ≤ now - btnDownAt < 3000`
(32-bit difference); in `loop` it returns `true` on a poll exactly when, in
addition, the long press did not fire on that poll.  Hence over the calls of one
press, latched at the down-edge call at `t0` and released at `t1`, no call
returns `true` except the release call, which returns `true` exactly when
`20 ≤ t1 - t0 < 3000`; and the 32-bit difference is the elapsed time whenever
that is below `2^32` ms. -/
theorem buttonShortPressed_classifies :
    (∀ (down : Bool) (now : Nat) (s : State),
      (buttonShortPressed down now s).1 = true ↔
        (down = false ∧ s.btnWasDown = true ∧ 20 ≤ sub32 now s.btnDownAt ∧
          sub32 now s.btnDownAt < 3000)) ∧
    (∀ (p : Poll) (s : State),
      Ev.buttonShortPressed true ∈ (loop p s).2 ↔
        (Ev.buttonLongPressed true ∉ (loop p s).2 ∧ p.down = false ∧ s.btnWasDown = true ∧
          20 ≤ sub32 (millis p.tShort) s.btnDownAt ∧
          sub32 (millis p.tShort) s.btnDownAt < 3000)) ∧
    (∀ (s : State) (t0 t1 : Nat) (held ups : List Nat), s.btnWasDown = false →
      (buttonShortPressed true t0 s).2.btnDownAt = t0 ∧
      shortRun ((true, t0) :: (held.map (fun t => (true, t)) ++
          (false, t1) :: ups.map (fun t => (false, t)))) s
        = false :: (List.replicate held.length false ++
            decide (20 ≤ sub32 t1 t0 ∧ sub32 t1 t0 < 3000) ::
              List.replicate ups.length false)) ∧
    (∀ t0 t1 : Nat, t0 ≤ t1 → t1 - t0 < 4294967296 →
      sub32 (millis t1) (millis t0) = t1 - t0) := by
  refine ⟨buttonShortPressed_iff, ?_, ?_, sub32_millis⟩
  · intro p s
    rw [short_mem_iff, buttonShortPressed_iff]
  intro s t0 t1 held ups h
  have h0 : buttonShortPressed true t0 s =
      (false, { s with btnWasDown := true, btnDownAt := t0 }) := by
    simp [buttonShortPressed, h]
  refine ⟨by rw [h0], ?_⟩
  simp only [shortRun]
  rw [h0, shortRun_held _ _ _ rfl]
  simp only [shortRun, List.cons.injEq, true_and, List.append_cancel_left_eq]
  by_cases hd : 20 ≤ sub32 t1 t0 ∧ sub32 t1 t0 < 3000
  · have h1 : buttonShortPressed false t1 { s with btnWasDown := true, btnDownAt := t0 } =
        (true, { s with btnWasDown := false, btnDownAt := t0 }) := by
      simp [buttonShortPressed, hd]
    rw [h1, shortRun_up _ _ rfl]
    simp [hd]
  · have h1 : buttonShortPressed false t1 { s with btnWasDown := true, btnDownAt := t0 } =
        (false, { s with btnWasDown := false, btnDownAt := t0 }) := by
      simp [buttonShortPressed, hd]
    rw [h1, shortRun_up _ _ rfl]
    simp [hd]

/-- An instance of the classifier lemma: a press latched at 100 ms, still held at 120 ms, released
at 150 ms and sampled up again at 200 ms. -/
theorem buttonShortPressed_classifies_witness :
    setup.btnWasDown = false ∧
    shortRun [(true, 100), (true, 120), (false, 150), (false, 200)] setup
      = [false, false, true, false] :=
  ⟨rfl, (buttonShortPressed_classifies.2.2.1 setup 100 150 [120] [200] rfl).2⟩

/-! ## Manual stop -/

theorem loop_manual_stop (p : Poll) (s : State)
    (hP : s.appState = AppState.STATE_PLAY) (hR : s.rolling = true)
    (hS : Ev.buttonShortPressed true ∈ (loop p s).2) :
    loop p s = ((stopAndLock (buttonShortPressed p.down (millis p.tShort) s).2).1,
      [Ev.buttonLongPressed false, Ev.buttonShortPressed true, Ev.stopAndLock,
        Ev.renderRollingOrFinal true, Ev.celebrateOverlayResult]) := by
  have hne : s.appState ≠ AppState.STATE_STARTUP := by rw [hP]; decide
  by_cases hl : (buttonLongPressed (millis p.tLong) s).1 = true
  · rw [loop_long p s hne hl] at hS
    simp at hS
  · have hl2 : (buttonLongPressed (millis p.tLong) s).1 = false := by simpa using hl
    rw [loop_play p s hP hl2] at hS ⊢
    by_cases hb : (buttonShortPressed p.down (millis p.tShort) s).1 = true
    · rw [loopPlay_eq, playPress_stop p s hb hR, animate_idle]
      · simp
      · simp
    · have hb2 : (buttonShortPressed p.down (millis p.tShort) s).1 = false := by simpa using hb
      have := (animate_events p (buttonShortPressed p.down (millis p.tShort) s).2 true).1
      rw [loopPlay_eq, playPress_none p s hb2] at hS
      simp at hS
      exact absurd hS this

/-- C3: in Play with `rolling = true`, whatever the elapsed roll time, a poll on
which `buttonShortPressed` returns `true` runs `stopAndLock` exactly once (the
calls of the poll are the long-press check, the short-press check and the lock
sequence, and nothing else): no re-sample is made, `rolling` is `false`
afterwards and `rA`, `rB`, `rC` keep the values they had before the poll. -/
theorem manual_stop_same_poll (p : Poll) (s : State)
    (hP : s.appState = AppState.STATE_PLAY) (hR : s.rolling = true)
    (hS : Ev.buttonShortPressed true ∈ (loop p s).2) :
    (loop p s).2 = [Ev.buttonLongPressed false, Ev.buttonShortPressed true, Ev.stopAndLock,
        Ev.renderRollingOrFinal true, Ev.celebrateOverlayResult] ∧
    lockCount (loop p s).2 = 1 ∧
    Ev.stepColor ∉ (loop p s).2 ∧ Ev.stepDice ∉ (loop p s).2 ∧
    (loop p s).1.rolling = false ∧
    (loop p s).1.rA = s.rA ∧ (loop p s).1.rB = s.rB ∧ (loop p s).1.rC = s.rC := by
  rw [loop_manual_stop p s hP hR hS]
  simp [lockCount]

/-- Witness of C3: a roll in progress in Color mode, button released 100 ms
after it was latched. -/
theorem manual_stop_same_poll_witness :
    (loop (pollAt 1000 false 0)
        { setup with appState := AppState.STATE_PLAY, rolling := true, rA := 3, rB := 4, rC := 5,
                     btnWasDown := true, btnDownAt := 900 }).1.rA = 3 :=
  (manual_stop_same_poll (pollAt 1000 false 0)
    { setup with appState := AppState.STATE_PLAY, rolling := true, rA := 3, rB := 4, rC := 5,
                 btnWasDown := true, btnDownAt := 900 } rfl rfl (by decide)).2.2.2.2.2.1

/-! ## Domain of the values -/

theorem inDomain_congr (s t : State) (hm : t.mode = s.mode) (ha : t.rA = s.rA)
    (hb : t.rB = s.rB) (hc : t.rC = s.rC) (h : InDomain s) : InDomain t := by
  unfold InDomain at *
  rw [hm, ha, hb, hc]
  exact h

theorem stepMode_inDomain (rnd : Nat → Nat → Nat → Nat) (s : State)
    (h : ∀ k lo hi : Nat, lo < hi → lo ≤ rnd k lo hi ∧ rnd k lo hi < hi) :
    InDomain (stepMode rnd s).1 := by
  have c0 := h 0 0 6 (by decide)
  have c1 := h 1 0 6 (by decide)
  have c2 := h 2 0 6 (by decide)
  have d0 := h 0 1 7 (by decide)
  have d1 := h 1 1 7 (by decide)
  have d2 := h 2 1 7 (by decide)
  by_cases hm : s.mode = Mode.MODE_COLOR
  · have e : (stepMode rnd s).1 = stepColor rnd s := by simp [stepMode, hm]
    rw [e]
    refine ⟨fun _ => ⟨?_, ?_, ?_⟩, fun hh => absurd (hm.symm.trans hh) (by decide)⟩
    · show rnd 0 0 6 % 256 ≤ 5
      omega
    · show rnd 1 0 6 % 256 ≤ 5
      omega
    · show rnd 2 0 6 % 256 ≤ 5
      omega
  · have e : (stepMode rnd s).1 = stepDice rnd s := by simp [stepMode, hm]
    rw [e]
    refine ⟨fun hh => absurd hh hm, fun _ => ⟨?_, ?_, ?_⟩⟩
    · show 1 ≤ rnd 0 1 7 % 256 ∧ rnd 0 1 7 % 256 ≤ 6
      omega
    · show 1 ≤ rnd 1 1 7 % 256 ∧ rnd 1 1 7 % 256 ≤ 6
      omega
    · show 1 ≤ rnd 2 1 7 % 256 ∧ rnd 2 1 7 % 256 ≤ 6
      omega

theorem spinTick_inDomain (p : Poll) (now : Nat) (s : State) (hr : RandomOk p)
    (h : InDomain s) : InDomain (spinTick p.rnd now s).1 := by
  by_cases hd : s.nextSpinMs ≤ now
  · rw [spinTick_due p.rnd now s hd]
    exact inDomain_congr (stepMode p.rnd s).1 _ rfl rfl rfl rfl (stepMode_inDomain p.rnd s hr)
  · rw [spinTick_wait p.rnd now s hd]
    exact h

theorem stopAndLock_inDomain (s : State) (h : InDomain s) : InDomain (stopAndLock s).1 :=
  inDomain_congr s _ (by simp) (by simp) (by simp) (by simp) h

theorem animate_inDomain (p : Poll) (s : State) (hr : RandomOk p) (h : InDomain s) :
    InDomain (animate p s).1 := by
  by_cases hc : s.appState = AppState.STATE_PLAY ∧ s.rolling = true
  · rw [animate_rolling p s hc.1 hc.2]
    split_ifs
    · exact stopAndLock_inDomain _ (spinTick_inDomain p _ s hr h)
    · exact spinTick_inDomain p _ s hr h
  · rw [animate_idle p s hc]
    exact h

theorem playPress_inDomain (p : Poll) (s : State) (h : InDomain s) :
    InDomain (playPress p s).1 := by
  by_cases hb : (buttonShortPressed p.down (millis p.tShort) s).1 = true
  · cases hr : s.rolling
    · rw [playPress_start p s hb hr]
      exact inDomain_congr s _ (by simp [startRolling]) (by simp [startRolling])
        (by simp [startRolling]) (by simp [startRolling]) h
    · rw [playPress_stop p s hb hr]
      exact inDomain_congr s _ (by simp) (by simp) (by simp) (by simp) h
  · have hb2 : (buttonShortPressed p.down (millis p.tShort) s).1 = false := by simpa using hb
    rw [playPress_none p s hb2]
    exact inDomain_congr s _ (by simp) (by simp) (by simp) (by simp) h

theorem loopSelect_inDomain (p : Poll) (s : State) (hr : RandomOk p) (h : InDomain s) :
    InDomain (loopSelect p s).1 := by
  unfold loopSelect
  simp only
  split_ifs with hb
  · unfold selectCommit
    exact inDomain_congr (stepMode p.rnd _).1 _ rfl rfl rfl rfl (stepMode_inDomain p.rnd _ hr)
  · exact inDomain_congr s _ (by simp) (by simp) (by simp) (by simp) h

theorem loopStartup_inDomain (p : Poll) (s : State) (h : InDomain s) :
    InDomain (loopStartup p s).1 := by
  unfold loopStartup
  simp only
  split_ifs with hb
  · exact inDomain_congr s _ (by simp) (by simp) (by simp) (by simp) h
  · exact inDomain_congr s _ (by simp) (by simp) (by simp) (by simp) h

theorem loop_inDomain (p : Poll) (s : State) (hr : RandomOk p) (h : InDomain s) :
    InDomain (loop p s).1 := by
  by_cases h0 : s.appState = AppState.STATE_STARTUP
  · rw [loop_startup p s h0]
    exact loopStartup_inDomain p s h
  · by_cases hl : (buttonLongPressed (millis p.tLong) s).1 = true
    · rw [loop_long p s h0 hl]
      exact inDomain_congr s _ (by simp) (by simp) (by simp) (by simp) h
    · have hl2 : (buttonLongPressed (millis p.tLong) s).1 = false := by simpa using hl
      cases ha : s.appState
      · exact absurd ha h0
      · rw [loop_select p s ha hl2]
        exact loopSelect_inDomain p s hr h
      · rw [loop_play p s ha hl2, loopPlay_eq]
        exact animate_inDomain p _ hr (playPress_inDomain p s h)

theorem run_inDomain (ps : List Poll) (s : State) (hr : ∀ p ∈ ps, RandomOk p)
    (h : InDomain s) : InDomain (run ps s).1 := by
  induction ps generalizing s with
  | nil => exact h
  | cons p ps ih =>
    simp only [run]
    exact ih (loop p s).1 (fun q hq => hr q (List.mem_cons_of_mem p hq))
      (loop_inDomain p s (hr p (List.mem_cons_self p ps)) h)

theorem randomOk_pollAt (t : Nat) (down : Bool) (k : Nat) : RandomOk (pollAt t down k) := by
  intro j lo hi h
  simp only [pollAt]
  have := Nat.mod_lt k (show 0 < hi - lo by omega)
  omega

/-- C5: in every state reached from `setup` by a sequence of polls whose
`random(lo, hi)` values lie in `[lo, hi)`, the three values are in `0..5` when
the mode is Color and in `1..6` when it is Dice. -/
theorem domain_closure (ps : List Poll) (hr : ∀ p ∈ ps, RandomOk p) :
    InDomain (stateAfter ps) :=
  run_inDomain ps setup hr (by decide)

/-- Witness of C5: boot, a short press into Select, a short press committing
Color, a short press starting a roll and one more tick. -/
theorem domain_closure_witness :
    InDomain (stateAfter [pollAt 100 true 7, pollAt 150 false 7, pollAt 300 true 7,
      pollAt 350 false 7, pollAt 500 true 7, pollAt 550 false 7, pollAt 650 false 8]) :=
  domain_closure _ (by
    intro p hp
    simp only [List.mem_cons, List.mem_singleton, List.not_mem_nil, or_false] at hp
    rcases hp with h | h | h | h | h | h | h <;> rw [h] <;> exact randomOk_pollAt _ _ _)

/-! ## The lock sequence -/

theorem digitOf_isDigitOf (v : Nat) (h1 : 1 ≤ v) (h6 : v ≤ 6) : IsDigitOf (digitOf v) v := by
  have : v = 1 ∨ v = 2 ∨ v = 3 ∨ v = 4 ∨ v = 5 ∨ v = 6 := by omega
  rcases this with h | h | h | h | h | h <;> rw [h] <;> decide

theorem colorInitialOf_isInitialOf (v : Nat) (h : v ≤ 5) :
    IsInitialOf (colorInitialOf v) v := by
  have : v = 0 ∨ v = 1 ∨ v = 2 ∨ v = 3 ∨ v = 4 ∨ v = 5 := by omega
  rcases this with h | h | h | h | h | h <;> rw [h] <;> decide

/-- C9: from a state whose values lie in the domain of the mode, `stopAndLock`
sets `rolling` to `false`, leaves `rA`, `rB`, `rC` unchanged, and sets `lastA`,
`lastB`, `lastC` to the digits `'1'..'6'` of value `rA`, `rB`, `rC` in Dice mode
and to the initials of the colours `rA`, `rB`, `rC` (never `'?'`) in Color
mode. -/
theorem stopAndLock_glyphs (s : State) (h : InDomain s) :
    (stopAndLock s).1.rolling = false ∧
    (stopAndLock s).1.rA = s.rA ∧ (stopAndLock s).1.rB = s.rB ∧ (stopAndLock s).1.rC = s.rC ∧
    (s.mode = Mode.MODE_DICE →
      IsDigitOf (stopAndLock s).1.lastA s.rA ∧ IsDigitOf (stopAndLock s).1.lastB s.rB ∧
        IsDigitOf (stopAndLock s).1.lastC s.rC) ∧
    (s.mode = Mode.MODE_COLOR →
      IsInitialOf (stopAndLock s).1.lastA s.rA ∧ IsInitialOf (stopAndLock s).1.lastB s.rB ∧
        IsInitialOf (stopAndLock s).1.lastC s.rC) := by
  refine ⟨by simp, by simp, by simp, by simp, ?_, ?_⟩
  · intro hm
    obtain ⟨⟨a1, a2⟩, ⟨b1, b2⟩, ⟨c1, c2⟩⟩ := h.2 hm
    simp only [stopAndLock, hm]
    exact ⟨digitOf_isDigitOf _ a1 a2, digitOf_isDigitOf _ b1 b2, digitOf_isDigitOf _ c1 c2⟩
  · intro hm
    obtain ⟨a, b, c⟩ := h.1 hm
    simp only [stopAndLock, hm]
    exact ⟨colorInitialOf_isInitialOf _ a, colorInitialOf_isInitialOf _ b,
      colorInitialOf_isInitialOf _ c⟩

/-- Witness of C9: Dice mode with the faces 2, 6, 1. -/
theorem stopAndLock_glyphs_witness :
    InDomain { setup with mode := Mode.MODE_DICE, rolling := true, rA := 2, rB := 6, rC := 1 } ∧
    (stopAndLock { setup with mode := Mode.MODE_DICE, rolling := true,
                              rA := 2, rB := 6, rC := 1 }).1.rolling = false :=
  ⟨by decide, (stopAndLock_glyphs
    { setup with mode := Mode.MODE_DICE, rolling := true, rA := 2, rB := 6, rC := 1 }
    (by decide)).1⟩

/-! ## Auto-lock -/

theorem lockCount_cons_ne (e : Ev) (l : List Ev) (h : e ≠ Ev.stopAndLock) :
    lockCount (e :: l) = lockCount l := by
  unfold lockCount
  rw [List.count_cons_of_ne (Ne.symm h)]

theorem spinTick_lockCount (rnd : Nat → Nat → Nat → Nat) (now : Nat) (s : State) :
    lockCount (spinTick rnd now s).2 = 0 := by
  rcases spinTick_log rnd now s with h | h | h <;> rw [h] <;> decide

theorem lockCount_append (l m : List Ev) : lockCount (l ++ m) = lockCount l + lockCount m := by
  unfold lockCount
  exact List.count_append _ _ _

theorem animate_startRolling (p : Poll) (s : State) : Ev.startRolling ∉ (animate p s).2 := by
  by_cases h : s.appState = AppState.STATE_PLAY ∧ s.rolling = true
  · rw [animate_rolling p s h.1 h.2]
    split_ifs <;> rcases spinTick_log p.rnd (millis p.tAnim) s with hl | hl | hl <;> simp [hl]
  · rw [animate_idle p s h]
    simp

/-- The animation block in Play: it locks exactly when a roll is in progress
and `now - rollingStartMs ≥ 7000`. -/
theorem animate_lock (p : Poll) (s : State) (hP : s.appState = AppState.STATE_PLAY) :
    (animate p s).1.appState = AppState.STATE_PLAY ∧
    (animate p s).1.rollingStartMs = s.rollingStartMs ∧
    (s.rolling = false → lockCount (animate p s).2 = 0 ∧ (animate p s).1.rolling = false) ∧
    (s.rolling = true → 7000 ≤ sub32 (millis p.tAnim) s.rollingStartMs →
      lockCount (animate p s).2 = 1 ∧ (animate p s).1.rolling = false) ∧
    (s.rolling = true → ¬ 7000 ≤ sub32 (millis p.tAnim) s.rollingStartMs →
      lockCount (animate p s).2 = 0 ∧ (animate p s).1.rolling = true) := by
  cases hr : s.rolling
  · have e : animate p s = (s, []) := animate_idle p s (by simp [hr])
    rw [e]
    simp [hP, hr, lockCount]
  · rw [animate_rolling p s hP hr]
    split_ifs with h7
    · have h0 := spinTick_lockCount p.rnd (millis p.tAnim) s
      rw [lockCount_append, h0]
      simp [hP, h7, lockCount]
    · simp [hP, hr, h7, spinTick_lockCount]

theorem loop_quiet (p : Poll) (s : State) (hP : s.appState = AppState.STATE_PLAY)
    (hq : NoPress (loop p s).2) :
    loop p s = ((animate p (buttonShortPressed p.down (millis p.tShort) s).2).1,
      Ev.buttonLongPressed false :: Ev.buttonShortPressed false ::
        (animate p (buttonShortPressed p.down (millis p.tShort) s).2).2) := by
  have hne : s.appState ≠ AppState.STATE_STARTUP := by rw [hP]; decide
  by_cases hl : (buttonLongPressed (millis p.tLong) s).1 = true
  · rw [loop_long p s hne hl] at hq
    exact absurd (List.mem_cons_self _ _) hq.1
  · have hl2 : (buttonLongPressed (millis p.tLong) s).1 = false := by simpa using hl
    rw [loop_play p s hP hl2, loopPlay_eq] at hq ⊢
    by_cases hb : (buttonShortPressed p.down (millis p.tShort) s).1 = true
    · exfalso
      apply hq.2
      cases hr : s.rolling
      · rw [playPress_start p s hb hr]
        simp
      · rw [playPress_stop p s hb hr]
        simp
    · have hb2 : (buttonShortPressed p.down (millis p.tShort) s).1 = false := by simpa using hb
      rw [playPress_none p s hb2]
      rfl

theorem loop_start (p : Poll) (s : State) (hP : s.appState = AppState.STATE_PLAY)
    (hS : Ev.startRolling ∈ (loop p s).2) :
    loop p s =
      ((animate p (startRolling (millis p.tStart)
          (buttonShortPressed p.down (millis p.tShort) s).2).1).1,
        Ev.buttonLongPressed false :: Ev.buttonShortPressed true :: Ev.startRolling ::
          (animate p (startRolling (millis p.tStart)
            (buttonShortPressed p.down (millis p.tShort) s).2).1).2) := by
  have hne : s.appState ≠ AppState.STATE_STARTUP := by rw [hP]; decide
  by_cases hl : (buttonLongPressed (millis p.tLong) s).1 = true
  · rw [loop_long p s hne hl] at hS
    simp at hS
  · have hl2 : (buttonLongPressed (millis p.tLong) s).1 = false := by simpa using hl
    rw [loop_play p s hP hl2, loopPlay_eq] at hS ⊢
    by_cases hb : (buttonShortPressed p.down (millis p.tShort) s).1 = true
    · cases hr : s.rolling
      · rw [playPress_start p s hb hr]
        rfl
      · exfalso
        rw [playPress_stop p s hb hr, animate_idle _ _ (by simp)] at hS
        simp at hS
    · exfalso
      have hb2 : (buttonShortPressed p.down (millis p.tShort) s).1 = false := by simpa using hb
      rw [playPress_none p s hb2] at hS
      have := animate_startRolling p (buttonShortPressed p.down (millis p.tShort) s).2
      simp at hS
      exact this hS

theorem run_quiet_idle (ps : List Poll) (s : State) (hP : s.appState = AppState.STATE_PLAY)
    (hr : s.rolling = false) (hq : ∀ l ∈ (run ps s).2, NoPress l) :
    (run ps s).2.map lockCount = List.replicate ps.length 0 ∧ (run ps s).1.rolling = false := by
  induction ps generalizing s with
  | nil => exact ⟨rfl, hr⟩
  | cons p ps ih =>
    simp only [run, List.mem_cons, forall_eq_or_imp] at hq ⊢
    have e := loop_quiet p s hP hq.1
    have hP1 : (buttonShortPressed p.down (millis p.tShort) s).2.appState = AppState.STATE_PLAY := by
      simp [hP]
    have hr1 : (buttonShortPressed p.down (millis p.tShort) s).2.rolling = false := by
      simp [hr]
    obtain ⟨a1, -, a3, -, -⟩ := animate_lock p _ hP1
    obtain ⟨a4, a5⟩ := a3 hr1
    have h1 : (loop p s).1.appState = AppState.STATE_PLAY := by rw [e]; exact a1
    have h2 : (loop p s).1.rolling = false := by rw [e]; exact a5
    have h3 : lockCount (loop p s).2 = 0 := by
      rw [e]
      simpa [lockCount_cons_ne] using a4
    obtain ⟨i1, i2⟩ := ih (loop p s).1 h1 h2 hq.2
    refine ⟨?_, i2⟩
    simp [h3, i1, List.replicate_succ]

theorem run_quiet_rolling (ps : List Poll) (s : State) (hP : s.appState = AppState.STATE_PLAY)
    (hr : s.rolling = true) (hq : ∀ l ∈ (run ps s).2, NoPress l) :
    (run ps s).2.map lockCount = autoLockAt s.rollingStartMs ps ∧
    ((run ps s).1.rolling = false ↔
      ∃ p ∈ ps, 7000 ≤ sub32 (millis p.tAnim) s.rollingStartMs) := by
  induction ps generalizing s with
  | nil => simp [run, autoLockAt, hr]
  | cons p ps ih =>
    simp only [run, List.mem_cons, forall_eq_or_imp] at hq ⊢
    have e := loop_quiet p s hP hq.1
    have hP1 : (buttonShortPressed p.down (millis p.tShort) s).2.appState = AppState.STATE_PLAY := by
      simp [hP]
    have hr1 : (buttonShortPressed p.down (millis p.tShort) s).2.rolling = true := by
      simp [hr]
    have ht1 : (buttonShortPressed p.down (millis p.tShort) s).2.rollingStartMs
        = s.rollingStartMs := by simp
    obtain ⟨a1, a2, -, a4, a5⟩ := animate_lock p _ hP1
    rw [ht1] at a2 a4 a5
    have h1 : (loop p s).1.appState = AppState.STATE_PLAY := by rw [e]; exact a1
    have ht : (loop p s).1.rollingStartMs = s.rollingStartMs := by rw [e]; exact a2
    by_cases h7 : 7000 ≤ sub32 (millis p.tAnim) s.rollingStartMs
    · obtain ⟨b1, b2⟩ := a4 hr1 h7
      have h2 : (loop p s).1.rolling = false := by rw [e]; exact b2
      have h3 : lockCount (loop p s).2 = 1 := by
        rw [e]
        simpa [lockCount_cons_ne] using b1
      obtain ⟨i1, i2⟩ := run_quiet_idle ps (loop p s).1 h1 h2 hq.2
      refine ⟨?_, ?_⟩
      · simp [autoLockAt, h7, h3, i1]
      · simp [i2, h7]
    · obtain ⟨b1, b2⟩ := a5 hr1 h7
      have h2 : (loop p s).1.rolling = true := by rw [e]; exact b2
      have h3 : lockCount (loop p s).2 = 0 := by
        rw [e]
        simpa [lockCount_cons_ne] using b1
      obtain ⟨i1, i2⟩ := ih (loop p s).1 h1 h2 hq.2
      rw [ht] at i1 i2
      refine ⟨?_, ?_⟩
      · simp [autoLockAt, h7, h3, i1]
      · simp [i2, h7]

theorem autoLockAt_sum (t0 : Nat) (ps : List Poll) :
    (autoLockAt t0 ps).sum =
      if ∃ p ∈ ps, 7000 ≤ sub32 (millis p.tAnim) t0 then 1 else 0 := by
  induction ps with
  | nil => simp [autoLockAt]
  | cons p ps ih =>
    by_cases h7 : 7000 ≤ sub32 (millis p.tAnim) t0
    · simp [autoLockAt, h7]
    · simp [autoLockAt, h7, ih]

/-- C4: for a roll started by `startRolling` on a Play poll `p0` (at clock value
`t0`, the time read by `startRolling`) and followed by any polls on which
neither button function returns `true`, the number of runs of `stopAndLock` on
each poll (the starting poll included) follows the auto-lock schedule: none
while the animation clock has `now - t0 < 7000`, one on the first poll with
`now - t0 ≥ 7000`, none afterwards; so it runs once in all when such a poll
occurs and not at all otherwise, and `rolling` ends `false` exactly when such a
poll occurred. -/
theorem auto_lock_once (p0 : Poll) (ps : List Poll) (s : State)
    (hP : s.appState = AppState.STATE_PLAY)
    (hS : Ev.startRolling ∈ (loop p0 s).2)
    (hq : ∀ l ∈ (run ps (loop p0 s).1).2, NoPress l) :
    (loop p0 s).1.rollingStartMs = millis p0.tStart ∧
    (run (p0 :: ps) s).2.map lockCount = autoLockAt (millis p0.tStart) (p0 :: ps) ∧
    ((run (p0 :: ps) s).1.rolling = false ↔
      ∃ p ∈ p0 :: ps, 7000 ≤ sub32 (millis p.tAnim) (millis p0.tStart)) ∧
    ((run (p0 :: ps) s).2.map lockCount).sum =
      (if ∃ p ∈ p0 :: ps, 7000 ≤ sub32 (millis p.tAnim) (millis p0.tStart) then 1 else 0) := by
  suffices hmain : (loop p0 s).1.rollingStartMs = millis p0.tStart ∧
      (run (p0 :: ps) s).2.map lockCount = autoLockAt (millis p0.tStart) (p0 :: ps) ∧
      ((run (p0 :: ps) s).1.rolling = false ↔
        ∃ p ∈ p0 :: ps, 7000 ≤ sub32 (millis p.tAnim) (millis p0.tStart)) by
    refine ⟨hmain.1, hmain.2.1, hmain.2.2, ?_⟩
    rw [hmain.2.1, autoLockAt_sum]
  have e := loop_start p0 s hP hS
  have hP1 : (startRolling (millis p0.tStart)
      (buttonShortPressed p0.down (millis p0.tShort) s).2).1.appState = AppState.STATE_PLAY := by
    simp [startRolling, hP]
  have hr1 : (startRolling (millis p0.tStart)
      (buttonShortPressed p0.down (millis p0.tShort) s).2).1.rolling = true := by
    simp [startRolling]
  have ht1 : (startRolling (millis p0.tStart)
      (buttonShortPressed p0.down (millis p0.tShort) s).2).1.rollingStartMs = millis p0.tStart := by
    simp [startRolling]
  obtain ⟨a1, a2, -, a4, a5⟩ := animate_lock p0 _ hP1
  rw [ht1] at a2 a4 a5
  have h1 : (loop p0 s).1.appState = AppState.STATE_PLAY := by rw [e]; exact a1
  have ht : (loop p0 s).1.rollingStartMs = millis p0.tStart := by rw [e]; exact a2
  refine ⟨ht, ?_⟩
  simp only [run, List.map_cons, List.mem_cons, exists_eq_or_imp]
  by_cases h7 : 7000 ≤ sub32 (millis p0.tAnim) (millis p0.tStart)
  · obtain ⟨b1, b2⟩ := a4 hr1 h7
    have h2 : (loop p0 s).1.rolling = false := by rw [e]; exact b2
    have h3 : lockCount (loop p0 s).2 = 1 := by
      rw [e]
      simpa [lockCount_cons_ne] using b1
    obtain ⟨i1, i2⟩ := run_quiet_idle ps (loop p0 s).1 h1 h2 hq
    refine ⟨?_, ?_⟩
    · simp [autoLockAt, h7, h3, i1]
    · simp [i2, h7]
  · obtain ⟨b1, b2⟩ := a5 hr1 h7
    have h2 : (loop p0 s).1.rolling = true := by rw [e]; exact b2
    have h3 : lockCount (loop p0 s).2 = 0 := by
      rw [e]
      simpa [lockCount_cons_ne] using b1
    obtain ⟨i1, i2⟩ := run_quiet_rolling ps (loop p0 s).1 h1 h2 hq
    rw [ht] at i1 i2
    refine ⟨?_, ?_⟩
    · simp [autoLockAt, h7, h3, i1]
    · simp [i2, h7]

/-- Witness of C4: a roll started at 1000 ms and polled at 4000, 7999, 8000
and 8100 ms with the button up locks at 8000 ms only. -/
theorem auto_lock_once_witness :
    (run (pollAt 1000 false 1 :: [pollAt 4000 false 2, pollAt 7999 false 3, pollAt 8000 false 4,
      pollAt 8100 false 5]) (stateAfter pressInPlay)).2.map lockCount = [0, 0, 0, 1, 0] :=
  (auto_lock_once (pollAt 1000 false 1) [pollAt 4000 false 2, pollAt 7999 false 3,
    pollAt 8000 false 4, pollAt 8100 false 5] (stateAfter pressInPlay)
    (by decide) (by decide) (by decide)).2.1.trans (by decide)

/-! ## Long holds -/

/-- C1 (defect of the code): during one continuous hold in Play, sampled down
from 1000 ms to a release sampled at 4500 ms, `buttonLongPressed` returns
`true` at 4000 ms and `buttonShortPressed` returns `true` on the release poll
(the pairs are the flags of the ten polls of `longHold`); the release commits
a mode and leaves Select again.  With the release at 7600 ms
`buttonLongPressed` returns `true` on two polls of the same hold. -/
theorem long_hold_short_press_on_release :
    (run longHold setup).2.map pressFlags =
      [(false, false), (false, true), (false, false), (false, true), (false, false),
       (false, false), (false, false), (true, false), (false, false), (false, true)] ∧
    (stateAfter longHold).appState = AppState.STATE_PLAY ∧
    (run longerHold setup).2.map pressFlags =
      [(false, false), (false, true), (false, false), (false, true), (false, false),
       (true, false), (false, false), (true, false), (false, false), (false, true)] := by
  decide

/-- C2 (defect of the code): a press sampled down from 500 ms and released at
4000 ms has held duration 3500 ms, yet `buttonShortPressed` returns `true` on
its release poll.  The long press fired at 3500 ms cleared the latch, the poll
at 3750 ms latched `btnDownAt = 3750` although it sampled no down-edge, and the
release is classified with `4000 - 3750 = 250`; the short press then commits a
mode.  The pairs are the long-press and short-press flags of the polls of
`selectHold`. -/
theorem long_press_release_reports_short :
    (run selectHold setup).2.map pressFlags =
      [(false, false), (false, true), (false, false), (false, false), (false, false),
       (true, false), (false, false)] ∧
    sub32 (millis (pollAt 4000 false 0).tShort) (millis (pollAt 500 true 0).tShort) = 3500 ∧
    (stateAfter selectHold).appState = AppState.STATE_SELECT ∧
    (stateAfter selectHold).btnWasDown = true ∧
    (stateAfter selectHold).btnDownAt = 3750 ∧
    pressFlags (loop (pollAt 4000 false 0) (stateAfter selectHold)).2 = (false, true) ∧
    (loop (pollAt 4000 false 0) (stateAfter selectHold)).1.appState = AppState.STATE_PLAY := by
  decide

/-! ## Events of one poll -/

theorem animate_first_tick (p : Poll) (s : State) (hP : s.appState = AppState.STATE_PLAY)
    (hr : s.rolling = true) (hn : s.nextSpinMs ≤ millis p.tAnim) :
    Ev.stepColor ∈ (animate p s).2 ∨ Ev.stepDice ∈ (animate p s).2 := by
  rw [animate_rolling p s hP hr, spinTick_due p.rnd _ s hn]
  rcases stepMode_log p.rnd s with h | h <;> split_ifs <;> simp [h]

/-- Counterexample to C10: on the Select poll at 2010 ms the caret timer toggles
the caret from Color to Dice and the short press, made while the screen showed
Color, commits Dice; on the Play poll at 1000 ms the short press starts a roll
and the values are re-sampled. -/
theorem toggle_and_commit_same_poll :
    (stateAfter pressAtSwap).appState = AppState.STATE_SELECT ∧
    (stateAfter pressAtSwap).caret = 0 ∧
    (loop (pollAt 2010 false 5) (stateAfter pressAtSwap)).2 =
      [Ev.buttonLongPressed false, Ev.showSelect 1, Ev.buttonShortPressed true, Ev.stepDice,
        Ev.renderRollingOrFinal true] ∧
    (loop (pollAt 2010 false 5) (stateAfter pressAtSwap)).1.mode = Mode.MODE_DICE ∧
    (stateAfter pressInPlay).appState = AppState.STATE_PLAY ∧
    (loop (pollAt 1000 false 5) (stateAfter pressInPlay)).2 =
      [Ev.buttonLongPressed false, Ev.buttonShortPressed true, Ev.startRolling, Ev.stepColor,
        Ev.renderRollingOrFinal false] := by
  decide

/-- C10, amended: the long-press check comes first and, when it returns `true`,
the poll does nothing else; a Startup poll only checks the short press; a manual
stop is followed by no re-sample and no second lock on its poll.  But in Select
the caret timer runs before the short-press check, so a poll whose timer is due
and whose short press is reported toggles the caret and then commits the toggled
caret; and a Play poll that starts a roll re-samples the values on that poll. -/
theorem poll_event_order :
    (∀ (p : Poll) (s : State), Ev.buttonLongPressed true ∈ (loop p s).2 →
      (loop p s).2 = [Ev.buttonLongPressed true, Ev.showSelect 0, Ev.delay 250]) ∧
    (∀ (p : Poll) (s : State), s.appState = AppState.STATE_STARTUP →
      (loop p s).2 = [Ev.buttonShortPressed false] ∨
        (loop p s).2 = [Ev.buttonShortPressed true, Ev.showSelect 0]) ∧
    (∀ (p : Poll) (s : State), s.appState = AppState.STATE_PLAY → s.rolling = true →
      Ev.buttonShortPressed true ∈ (loop p s).2 →
      (loop p s).2 = [Ev.buttonLongPressed false, Ev.buttonShortPressed true, Ev.stopAndLock,
        Ev.renderRollingOrFinal true, Ev.celebrateOverlayResult]) ∧
    (∀ (p : Poll) (s : State), s.appState = AppState.STATE_SELECT →
      Ev.buttonLongPressed true ∉ (loop p s).2 →
      2000 ≤ sub32 (millis p.tSelect) s.lastSwap →
      Ev.buttonShortPressed true ∈ (loop p s).2 →
      ((loop p s).2 = [Ev.buttonLongPressed false, Ev.showSelect (s.caret ^^^ 1),
          Ev.buttonShortPressed true, Ev.stepColor, Ev.renderRollingOrFinal true] ∨
        (loop p s).2 = [Ev.buttonLongPressed false, Ev.showSelect (s.caret ^^^ 1),
          Ev.buttonShortPressed true, Ev.stepDice, Ev.renderRollingOrFinal true]) ∧
      (loop p s).1.caret = s.caret ^^^ 1 ∧
      (loop p s).1.mode = (if s.caret ^^^ 1 = 0 then Mode.MODE_COLOR else Mode.MODE_DICE)) ∧
    (∀ (p : Poll) (s : State), s.appState = AppState.STATE_PLAY →
      Ev.startRolling ∈ (loop p s).2 →
      Ev.stepColor ∈ (loop p s).2 ∨ Ev.stepDice ∈ (loop p s).2) := by
  refine ⟨?_, ?_, ?_, ?_, ?_⟩
  · intro p s h
    obtain ⟨h0, hl⟩ := long_mem p s h
    rw [loop_long p s h0 hl]
  · intro p s h0
    rw [loop_startup p s h0]
    cases h : (buttonShortPressed p.down (millis p.tShort) s).1
    · rw [loopStartup_none p s h]
      exact Or.inl rfl
    · rw [loopStartup_press p s h]
      exact Or.inr rfl
  · intro p s hP hR hS
    rw [loop_manual_stop p s hP hR hS]
  · intro p s hS hl hd hs
    have e := loop_select_of_not_long p s hS hl
    rw [e] at hs ⊢
    simp only [List.mem_cons] at hs
    have hs2 : Ev.buttonShortPressed true ∈ (loopSelect p s).2 := by
      rcases hs with hs | hs
      · cases hs
      · exact hs
    have hb := loopSelect_short_mem p s hs2
    rw [loopSelect_commit p s hb]
    obtain ⟨-, -, c3, c4, -⟩ := selectCommit_state p.rnd
      (buttonShortPressed p.down (millis p.tShort) (selectSwap (millis p.tSelect) s).1).2
    have hc : (buttonShortPressed p.down (millis p.tShort)
        (selectSwap (millis p.tSelect) s).1).2.caret = s.caret ^^^ 1 := by
      rw [(buttonShortPressed_frame _ _ _).2.2.2.2.2.2.2.2.2.2.2.2.2.1,
        selectSwap_due _ s hd]
    have hw : (selectSwap (millis p.tSelect) s).2 = [Ev.showSelect (s.caret ^^^ 1)] := by
      rw [selectSwap_due _ s hd]
    refine ⟨?_, ?_, ?_⟩
    · rcases selectCommit_log p.rnd
        (buttonShortPressed p.down (millis p.tShort) (selectSwap (millis p.tSelect) s).1).2
        with h | h
      · left
        rw [hw, h]
        rfl
      · right
        rw [hw, h]
        rfl
    · show (selectCommit p.rnd _).1.caret = _
      rw [c4, hc]
    · show (selectCommit p.rnd _).1.mode = _
      rw [c3, hc]
  · intro p s hP hS
    rw [loop_start p s hP hS]
    have := animate_first_tick p (startRolling (millis p.tStart)
      (buttonShortPressed p.down (millis p.tShort) s).2).1
      (by simp [startRolling, hP]) (by simp [startRolling]) (by simp [startRolling])
    rcases this with h | h
    · left
      simp [h]
    · right
      simp [h]

/-- Witness of C10 (amended): the poll at 6000 ms of a hold begun at 3000 ms
during a roll is a long-press poll. -/
theorem poll_event_order_witness :
    (loop (pollAt 6000 true 5) (stateAfter rollThenHold)).2 =
      [Ev.buttonLongPressed true, Ev.showSelect 0, Ev.delay 250] :=
  poll_event_order.1 (pollAt 6000 true 5) (stateAfter rollThenHold) (by decide)

/-! ## Long press -/

theorem run_cons (p : Poll) (ps : List Poll) (s : State) :
    run (p :: ps) s = ((run ps (loop p s).1).1, (loop p s).2 :: (run ps (loop p s).1).2) := rfl

theorem run_startup_held (hs rest : List Poll) (s : State)
    (h0 : s.appState = AppState.STATE_STARTUP) (hb : s.btnWasDown = true)
    (hd : ∀ h ∈ hs, h.down = true) :
    run (hs ++ rest) s =
      ((run rest s).1, List.replicate hs.length [Ev.buttonShortPressed false] ++ (run rest s).2) := by
  induction hs with
  | nil => simp
  | cons h hs ih =>
    have e : loop h s = (s, [Ev.buttonShortPressed false]) := by
      rw [loop_startup h s h0]
      have hh : h.down = true := hd h (List.mem_cons_self _ _)
      have e1 : buttonShortPressed h.down (millis h.tShort) s = (false, s) := by
        simp [buttonShortPressed, hh, hb]
      simp [loopStartup, e1]
    rw [List.cons_append, run_cons, e, ih (fun q hq => hd q (List.mem_cons_of_mem _ hq))]
    rfl

/-- Counterexample to C8: the long press fired at 6000 ms during a roll, with
the Select caret on Dice, leaves `appState = Select` but the Select caret on
Dice and `rolling = true`. -/
theorem long_press_keeps_caret_and_rolling :
    (stateAfter rollThenHold).appState = AppState.STATE_PLAY ∧
    (stateAfter rollThenHold).rolling = true ∧
    (stateAfter rollThenHold).caret = 1 ∧
    Ev.buttonLongPressed true ∈ (loop (pollAt 6000 true 5) (stateAfter rollThenHold)).2 ∧
    (loop (pollAt 6000 true 5) (stateAfter rollThenHold)).1.appState = AppState.STATE_SELECT ∧
    (loop (pollAt 6000 true 5) (stateAfter rollThenHold)).1.caret = 1 ∧
    (loop (pollAt 6000 true 5) (stateAfter rollThenHold)).1.rolling = true := by
  decide

/-- C8, amended: a poll on which `buttonLongPressed` returns `true` (possible
only outside Startup) leaves `appState = Select`, draws the select screen with
the caret on Color, and leaves `rolling` as it was; `rolling` is `false` after
the Select poll that commits a mode.  In Startup a hold of 3000 ms or more, from
the down-edge poll to the release poll, causes no transition: every poll only
reports no short press. -/
theorem long_press_to_select :
    (∀ (p : Poll) (s : State), Ev.buttonLongPressed true ∈ (loop p s).2 →
      s.appState ≠ AppState.STATE_STARTUP ∧
      (loop p s).1.appState = AppState.STATE_SELECT ∧
      (loop p s).1.rolling = s.rolling ∧
      (loop p s).2 = [Ev.buttonLongPressed true, Ev.showSelect 0, Ev.delay 250]) ∧
    (∀ (p : Poll) (s : State), s.appState = AppState.STATE_SELECT →
      Ev.buttonShortPressed true ∈ (loop p s).2 →
      (loop p s).1.appState = AppState.STATE_PLAY ∧ (loop p s).1.rolling = false) ∧
    (∀ (p0 pr : Poll) (hs : List Poll) (s : State),
      s.appState = AppState.STATE_STARTUP → s.btnWasDown = false →
      p0.down = true → (∀ h ∈ hs, h.down = true) → pr.down = false →
      3000 ≤ sub32 (millis pr.tShort) (millis p0.tShort) →
      (run (p0 :: (hs ++ [pr])) s).1.appState = AppState.STATE_STARTUP ∧
      (run (p0 :: (hs ++ [pr])) s).2 =
        List.replicate (hs.length + 2) [Ev.buttonShortPressed false]) := by
  refine ⟨?_, ?_, ?_⟩
  · intro p s h
    obtain ⟨h0, hl⟩ := long_mem p s h
    rw [loop_long p s h0 hl]
    simp [h0]
  · intro p s hS hs
    have hl : Ev.buttonLongPressed true ∉ (loop p s).2 := by
      intro h
      obtain ⟨h0, hl⟩ := long_mem p s h
      rw [loop_long p s h0 hl] at hs
      simp at hs
    rw [loop_select_of_not_long p s hS hl] at hs ⊢
    simp only [List.mem_cons] at hs
    have hs2 : Ev.buttonShortPressed true ∈ (loopSelect p s).2 := by
      rcases hs with hs | hs
      · cases hs
      · exact hs
    rw [loopSelect_commit p s (loopSelect_short_mem p s hs2)]
    obtain ⟨c1, c2, -⟩ := selectCommit_state p.rnd
      (buttonShortPressed p.down (millis p.tShort) (selectSwap (millis p.tSelect) s).1).2
    exact ⟨c1, c2⟩
  · intro p0 pr hs s h0 hb hd0 hd hu h3
    have e0 : loop p0 s = ({ s with btnWasDown := true, btnDownAt := millis p0.tShort },
        [Ev.buttonShortPressed false]) := by
      rw [loop_startup p0 s h0]
      have e1 : buttonShortPressed p0.down (millis p0.tShort) s =
          (false, { s with btnWasDown := true, btnDownAt := millis p0.tShort }) := by
        simp [buttonShortPressed, hd0, hb]
      simp [loopStartup, e1]
    have er : loop pr { s with btnWasDown := true, btnDownAt := millis p0.tShort } =
        ({ s with btnWasDown := false, btnDownAt := millis p0.tShort },
          [Ev.buttonShortPressed false]) := by
      rw [loop_startup pr { s with btnWasDown := true, btnDownAt := millis p0.tShort } h0]
      have e1 : buttonShortPressed pr.down (millis pr.tShort)
          { s with btnWasDown := true, btnDownAt := millis p0.tShort } =
          (false, { s with btnWasDown := false, btnDownAt := millis p0.tShort }) := by
        have : ¬ sub32 (millis pr.tShort) (millis p0.tShort) < 3000 := by omega
        simp [buttonShortPressed, hu, this]
      simp [loopStartup, e1]
    rw [run_cons, e0,
      run_startup_held hs [pr] { s with btnWasDown := true, btnDownAt := millis p0.tShort }
        h0 rfl hd,
      run_cons, er]
    refine ⟨h0, ?_⟩
    rw [show hs.length + 2 = (hs.length + 1) + 1 from rfl, List.replicate_succ,
      List.replicate_succ']
    rfl

/-- Witness of C8 (amended): the long press fired at 6000 ms during a roll. -/
theorem long_press_to_select_witness :
    (loop (pollAt 6000 true 5) (stateAfter rollThenHold)).1.appState = AppState.STATE_SELECT :=
  (long_press_to_select.1 (pollAt 6000 true 5) (stateAfter rollThenHold) (by decide)).2.1

/-! ## The Select caret -/

theorem animate_select_frame (p : Poll) (s : State) :
    (animate p s).1.appState = s.appState ∧ (animate p s).1.caret = s.caret ∧
    (animate p s).1.lastSwap = s.lastSwap := by
  by_cases h : s.appState = AppState.STATE_PLAY ∧ s.rolling = true
  · rw [animate_rolling p s h.1 h.2]
    split_ifs <;> simp
  · rw [animate_idle p s h]
    exact ⟨rfl, rfl, rfl⟩

theorem playPress_select_frame (p : Poll) (s : State) :
    (playPress p s).1.appState = s.appState ∧ (playPress p s).1.caret = s.caret ∧
    (playPress p s).1.lastSwap = s.lastSwap := by
  cases h : (buttonShortPressed p.down (millis p.tShort) s).1
  · rw [playPress_none p s h]
    simp
  · cases hr : s.rolling
    · rw [playPress_start p s h hr]
      simp [startRolling]
    · rw [playPress_stop p s h hr]
      simp

theorem loopSelect_caret (p : Poll) (s : State) :
    (loopSelect p s).1.caret = (selectSwap (millis p.tSelect) s).1.caret ∧
    (loopSelect p s).1.lastSwap = (selectSwap (millis p.tSelect) s).1.lastSwap := by
  cases h : (buttonShortPressed p.down (millis p.tShort) (selectSwap (millis p.tSelect) s).1).1
  · rw [loopSelect_stay p s h]
    simp
  · rw [loopSelect_commit p s h]
    obtain ⟨-, -, -, c4, c5⟩ := selectCommit_state p.rnd
      (buttonShortPressed p.down (millis p.tShort) (selectSwap (millis p.tSelect) s).1).2
    simp [c4, c5]

theorem loopSelect_appState (p : Poll) (s : State) (h0 : s.appState = AppState.STATE_SELECT) :
    (loopSelect p s).1.appState ≠ AppState.STATE_STARTUP := by
  cases h : (buttonShortPressed p.down (millis p.tShort) (selectSwap (millis p.tSelect) s).1).1
  · rw [loopSelect_stay p s h]
    simp [h0]
  · rw [loopSelect_commit p s h]
    simp [(selectCommit_state p.rnd _).1]

/-- Once Startup is left it is never entered again. -/
theorem loop_not_startup (p : Poll) (s : State) (h0 : s.appState ≠ AppState.STATE_STARTUP) :
    (loop p s).1.appState ≠ AppState.STATE_STARTUP := by
  by_cases hl : (buttonLongPressed (millis p.tLong) s).1 = true
  · rw [loop_long p s h0 hl]
    simp
  · have hl2 : (buttonLongPressed (millis p.tLong) s).1 = false := by simpa using hl
    cases ha : s.appState
    · exact absurd ha h0
    · rw [loop_select p s ha hl2]
      exact loopSelect_appState p s ha
    · rw [loop_play p s ha hl2, loopPlay_eq]
      simp [(animate_select_frame p _).1, (playPress_select_frame p s).1, ha]

/-- In Startup the Select caret and its timer are not touched. -/
theorem loop_startup_caret (p : Poll) (s : State) (h0 : s.appState = AppState.STATE_STARTUP) :
    (loop p s).1.caret = s.caret ∧ (loop p s).1.lastSwap = s.lastSwap := by
  rw [loop_startup p s h0]
  cases h : (buttonShortPressed p.down (millis p.tShort) s).1
  · rw [loopStartup_none p s h]
    simp
  · rw [loopStartup_press p s h]
    simp

theorem run_startup_caret (ps : List Poll) (s : State)
    (h : s.appState = AppState.STATE_STARTUP → s.caret = 0 ∧ s.lastSwap = 0) :
    (run ps s).1.appState = AppState.STATE_STARTUP →
      (run ps s).1.caret = 0 ∧ (run ps s).1.lastSwap = 0 := by
  induction ps generalizing s with
  | nil => exact h
  | cons p ps ih =>
    rw [run_cons]
    apply ih
    intro h1
    by_cases h0 : s.appState = AppState.STATE_STARTUP
    · obtain ⟨c1, c2⟩ := loop_startup_caret p s h0
      rw [c1, c2]
      exact h h0
    · exact absurd h1 (loop_not_startup p s h0)

theorem xor_one_le (c : Nat) (h : c ≤ 1) : c ^^^ 1 ≤ 1 := by
  have : c = 0 ∨ c = 1 := by omega
  rcases this with h | h <;> rw [h] <;> decide

theorem selectSwap_caret_le (now : Nat) (s : State) (h : s.caret ≤ 1) :
    (selectSwap now s).1.caret ≤ 1 := by
  unfold selectSwap
  split_ifs
  · exact xor_one_le _ h
  · exact h

theorem loop_caret_le (p : Poll) (s : State) (h : s.caret ≤ 1) : (loop p s).1.caret ≤ 1 := by
  by_cases h0 : s.appState = AppState.STATE_STARTUP
  · rw [(loop_startup_caret p s h0).1]
    exact h
  · by_cases hl : (buttonLongPressed (millis p.tLong) s).1 = true
    · rw [loop_long p s h0 hl]
      simpa using h
    · have hl2 : (buttonLongPressed (millis p.tLong) s).1 = false := by simpa using hl
      cases ha : s.appState
      · exact absurd ha h0
      · rw [loop_select p s ha hl2]
        show (loopSelect p s).1.caret ≤ 1
        rw [(loopSelect_caret p s).1]
        exact selectSwap_caret_le _ s h
      · rw [loop_play p s ha hl2, loopPlay_eq]
        show (animate p (playPress p s).1).1.caret ≤ 1
        rw [(animate_select_frame p _).2.1, (playPress_select_frame p s).2.1]
        exact h

theorem run_caret_le (ps : List Poll) (s : State) (h : s.caret ≤ 1) : (run ps s).1.caret ≤ 1 := by
  induction ps generalizing s with
  | nil => exact h
  | cons p ps ih =>
    rw [run_cons]
    exact ih _ (loop_caret_le p s h)

/-- C7 (defect of the code): Select is entered at 5100 ms, the entry draws the
select screen with the caret on Color and the Select caret is Color; the first
Select poll, 1 ms after entry, toggles the caret to Dice and redraws the screen,
because `lastSwap` still has its boot value 0 and is not re-armed on entry. -/
theorem late_entry_toggles_at_once :
    (run lateEntry setup).2 =
      [[Ev.buttonShortPressed false], [Ev.buttonShortPressed true, Ev.showSelect 0]] ∧
    (stateAfter lateEntry).appState = AppState.STATE_SELECT ∧
    (stateAfter lateEntry).caret = 0 ∧
    sub32 (millis 5101) (millis 5100) < 2000 ∧
    (loop (pollAt 5101 false 0) (stateAfter lateEntry)).2 =
      [Ev.buttonLongPressed false, Ev.showSelect 1, Ev.buttonShortPressed false] ∧
    (loop (pollAt 5101 false 0) (stateAfter lateEntry)).1.caret = 1 := by
  decide

/-- The caret timer as the code runs it: the Select caret is always Color (0) or
Dice (1), and toggling exchanges the two; on entry into Select from Startup (by a short press, at any
time) it is Color and `lastSwap` is still 0, the boot value, because entry does
not restart the timer; on every Select poll on which no long press fires the
caret toggles exactly when `now - lastSwap ≥ 2000` (32-bit difference), where
`lastSwap` is the time of the previous toggle, and `lastSwap` becomes `now`; a
short press on that poll commits Color if the caret, after the timer, is Color
and Dice otherwise, and without a short press the state stays Select. -/
theorem select_caret_timer :
    (∀ ps : List Poll, (stateAfter ps).caret = 0 ∨ (stateAfter ps).caret = 1) ∧
    ((0 : Nat) ^^^ 1 = 1 ∧ (1 : Nat) ^^^ 1 = 0) ∧
    (∀ (ps : List Poll) (p : Poll), (stateAfter ps).appState = AppState.STATE_STARTUP →
      Ev.buttonShortPressed true ∈ (loop p (stateAfter ps)).2 →
      (loop p (stateAfter ps)).1.appState = AppState.STATE_SELECT ∧
      (loop p (stateAfter ps)).1.caret = 0 ∧
      (loop p (stateAfter ps)).1.lastSwap = 0) ∧
    (∀ (p : Poll) (s : State), s.appState = AppState.STATE_SELECT →
      Ev.buttonLongPressed true ∉ (loop p s).2 →
      (loop p s).1.caret =
        (if 2000 ≤ sub32 (millis p.tSelect) s.lastSwap then s.caret ^^^ 1 else s.caret) ∧
      (loop p s).1.lastSwap =
        (if 2000 ≤ sub32 (millis p.tSelect) s.lastSwap then millis p.tSelect else s.lastSwap) ∧
      (Ev.buttonShortPressed true ∈ (loop p s).2 →
        (loop p s).1.appState = AppState.STATE_PLAY ∧
        (loop p s).1.mode =
          (if (loop p s).1.caret = 0 then Mode.MODE_COLOR else Mode.MODE_DICE)) ∧
      (Ev.buttonShortPressed true ∉ (loop p s).2 →
        (loop p s).1.appState = AppState.STATE_SELECT)) := by
  refine ⟨?_, ⟨by decide, by decide⟩, ?_, ?_⟩
  · intro ps
    have := run_caret_le ps setup (by decide)
    unfold stateAfter
    omega
  · intro ps p h0 hs
    obtain ⟨i1, i2⟩ := run_startup_caret ps setup (fun _ => ⟨rfl, rfl⟩) h0
    have i1 : (stateAfter ps).caret = 0 := i1
    have i2 : (stateAfter ps).lastSwap = 0 := i2
    rw [loop_startup p _ h0] at hs ⊢
    cases h : (buttonShortPressed p.down (millis p.tShort) (stateAfter ps)).1
    · rw [loopStartup_none p _ h] at hs
      simp at hs
    · rw [loopStartup_press p _ h]
      simp [i1, i2]
  · intro p s hS hl
    rw [loop_select_of_not_long p s hS hl]
    obtain ⟨k1, k2⟩ := loopSelect_caret p s
    have w1 : (selectSwap (millis p.tSelect) s).1.caret =
        (if 2000 ≤ sub32 (millis p.tSelect) s.lastSwap then s.caret ^^^ 1 else s.caret) := by
      unfold selectSwap
      split_ifs <;> rfl
    have w2 : (selectSwap (millis p.tSelect) s).1.lastSwap =
        (if 2000 ≤ sub32 (millis p.tSelect) s.lastSwap then millis p.tSelect
          else s.lastSwap) := by
      unfold selectSwap
      split_ifs <;> rfl
    refine ⟨k1.trans w1, k2.trans w2, ?_, ?_⟩
    · intro hs
      simp only [List.mem_cons] at hs
      have hs2 : Ev.buttonShortPressed true ∈ (loopSelect p s).2 := by
        rcases hs with hs | hs
        · cases hs
        · exact hs
      rw [loopSelect_commit p s (loopSelect_short_mem p s hs2)]
      obtain ⟨c1, -, c3, c4, -⟩ := selectCommit_state p.rnd
        (buttonShortPressed p.down (millis p.tShort) (selectSwap (millis p.tSelect) s).1).2
      refine ⟨c1, ?_⟩
      show (selectCommit p.rnd _).1.mode = if (selectCommit p.rnd _).1.caret = 0 then _ else _
      rw [c3, c4]
    · intro hs
      cases h : (buttonShortPressed p.down (millis p.tShort)
          (selectSwap (millis p.tSelect) s).1).1
      · rw [loopSelect_stay p s h]
        simp [hS]
      · exfalso
        apply hs
        rw [loopSelect_commit p s h]
        simp

/-- An instance of the caret-timer lemma: the first Select poll after the entry at
5100 ms. -/
theorem select_caret_timer_witness :
    (loop (pollAt 5101 false 0) (stateAfter lateEntry)).1.caret =
      (if 2000 ≤ sub32 (millis (pollAt 5101 false 0).tSelect) (stateAfter lateEntry).lastSwap
        then (stateAfter lateEntry).caret ^^^ 1 else (stateAfter lateEntry).caret) :=
  (select_caret_timer.2.2.2 (pollAt 5101 false 0) (stateAfter lateEntry)
    (by decide) (by decide)).1

/-! ## Pacing of the roll -/

theorem stepMode_values (rnd : Nat → Nat → Nat → Nat) (s : State) :
    values (stepMode rnd s).1 = sampled rnd s.mode := by
  unfold stepMode sampled values
  split_ifs <;> rfl

theorem animate_tick_fields (p : Poll) (s : State) (hP : s.appState = AppState.STATE_PLAY)
    (hr : s.rolling = true) :
    values (animate p s).1 = values (spinTick p.rnd (millis p.tAnim) s).1 ∧
    (animate p s).1.start = (spinTick p.rnd (millis p.tAnim) s).1.start ∧
    (animate p s).1.nextSpinMs = (spinTick p.rnd (millis p.tAnim) s).1.nextSpinMs ∧
    (∀ e : Ev, e = Ev.stepColor ∨ e = Ev.stepDice →
      (e ∈ (animate p s).2 ↔ e ∈ (spinTick p.rnd (millis p.tAnim) s).2)) := by
  rw [animate_rolling p s hP hr]
  split_ifs
  · refine ⟨by simp [values], by simp, by simp, ?_⟩
    intro e he
    rcases he with he | he <;> simp [he]
  · exact ⟨rfl, rfl, rfl, fun _ _ => Iff.rfl⟩

/-- A due tick of a roll in progress in Play. -/
theorem animate_due (p : Poll) (s : State) (hP : s.appState = AppState.STATE_PLAY)
    (hr : s.rolling = true) (hd : s.nextSpinMs ≤ millis p.tAnim) :
    values (animate p s).1 = sampled p.rnd s.mode ∧
    (animate p s).1.start = (if s.nextSpinMs = 0 then millis p.tAnim else s.start) ∧
    (animate p s).1.nextSpinMs = add32 (millis p.tAnim)
      (if sub32 (millis p.tAnim) (if s.nextSpinMs = 0 then millis p.tAnim else s.start) < 800
        then 70 else 110) ∧
    (Ev.stepColor ∈ (animate p s).2 ∨ Ev.stepDice ∈ (animate p s).2) := by
  obtain ⟨a1, a2, a3, -⟩ := animate_tick_fields p s hP hr
  rw [a1, a2, a3, spinTick_due p.rnd _ s hd]
  refine ⟨?_, rfl, rfl, animate_first_tick p s hP hr hd⟩
  rw [← stepMode_values]
  rfl

/-- A poll of a roll in progress in Play whose tick is not due. -/
theorem animate_wait (p : Poll) (s : State) (hP : s.appState = AppState.STATE_PLAY)
    (hr : s.rolling = true) (hd : ¬ s.nextSpinMs ≤ millis p.tAnim) :
    values (animate p s).1 = values s ∧ (animate p s).1.start = s.start ∧
    (animate p s).1.nextSpinMs = s.nextSpinMs ∧
    Ev.stepColor ∉ (animate p s).2 ∧ Ev.stepDice ∉ (animate p s).2 := by
  obtain ⟨a1, a2, a3, a4⟩ := animate_tick_fields p s hP hr
  rw [a1, a2, a3, a4 _ (Or.inl rfl), a4 _ (Or.inr rfl), spinTick_wait p.rnd _ s hd]
  simp

/-- Counterexample to C6: the roll is started by `startRolling` at 1000 ms and
its first tick reads the clock at 1001 ms; on the poll at 1800 ms the tick is
due and `now - rollingStartMs = 800`, yet `nextSpinMs` becomes `now + 70`, not
`now + 110`.  Also with one clock value per poll: a tick 110 ms before the
32-bit clock wraps leaves `nextSpinMs = 0`, the next tick, at
`now - rollingStartMs = 1005`, restarts `start` and sets `nextSpinMs` to
`now + 70`.  And a due poll of a roll in progress on which the long press fires
(6000 ms, with `nextSpinMs = 5110`) makes no re-sample and leaves the values
and `nextSpinMs` as they were, with `rolling` still `true`. -/
theorem pacing_not_from_rollingStartMs :
    (stateAfter skewedRoll).appState = AppState.STATE_PLAY ∧
    (stateAfter skewedRoll).rolling = true ∧
    (stateAfter skewedRoll).rollingStartMs = 1000 ∧
    (stateAfter skewedRoll).start = 1001 ∧
    (stateAfter skewedRoll).nextSpinMs ≤ millis (pollAt 1800 false 9).tAnim ∧
    800 ≤ sub32 (millis (pollAt 1800 false 9).tAnim) (stateAfter skewedRoll).rollingStartMs ∧
    (loop (pollAt 1800 false 9) (stateAfter skewedRoll)).2 =
      [Ev.buttonLongPressed false, Ev.buttonShortPressed false, Ev.stepColor,
        Ev.renderRollingOrFinal false] ∧
    (loop (pollAt 1800 false 9) (stateAfter skewedRoll)).1.nextSpinMs = 1800 + 70 ∧
    (stateAfter wrapRoll).appState = AppState.STATE_PLAY ∧
    (stateAfter wrapRoll).rolling = true ∧
    (stateAfter wrapRoll).rollingStartMs = 4294966296 ∧
    (stateAfter wrapRoll).nextSpinMs = 0 ∧
    millis (pollAt 4294967301 false 11).tAnim = 5 ∧
    sub32 (millis (pollAt 4294967301 false 11).tAnim) (stateAfter wrapRoll).rollingStartMs
      = 1005 ∧
    (loop (pollAt 4294967301 false 11) (stateAfter wrapRoll)).2 =
      [Ev.buttonLongPressed false, Ev.buttonShortPressed false, Ev.stepColor,
        Ev.renderRollingOrFinal false] ∧
    (loop (pollAt 4294967301 false 11) (stateAfter wrapRoll)).1.nextSpinMs = 5 + 70 ∧
    (stateAfter rollThenHold).appState = AppState.STATE_PLAY ∧
    (stateAfter rollThenHold).rolling = true ∧
    (stateAfter rollThenHold).nextSpinMs = 5110 ∧
    (stateAfter rollThenHold).nextSpinMs ≤ millis (pollAt 6000 true 5).tAnim ∧
    (loop (pollAt 6000 true 5) (stateAfter rollThenHold)).2 =
      [Ev.buttonLongPressed true, Ev.showSelect 0, Ev.delay 250] ∧
    values (loop (pollAt 6000 true 5) (stateAfter rollThenHold)).1 =
      values (stateAfter rollThenHold) ∧
    (loop (pollAt 6000 true 5) (stateAfter rollThenHold)).1.nextSpinMs = 5110 ∧
    (loop (pollAt 6000 true 5) (stateAfter rollThenHold)).1.rolling = true := by
  decide

/-- C6, amended: the pacing is measured from `start`, the clock value read by
the first tick of the roll, not from `rollingStartMs`.  A Play poll that runs
`startRolling` ticks on the same poll: it re-samples the values, sets `start` to
the `now` of the animation block and `nextSpinMs` to `now + 70`.  A later Play
poll of a roll in progress on which no press is reported and `now ≥ nextSpinMs`
re-samples the values, keeps `start` (or sets it to `now` when `nextSpinMs` is
0) and sets `nextSpinMs` to `now + 70` when `now - start < 800` and to
`now + 110` otherwise (32-bit arithmetic).  Every Play poll with
`rolling = true` and `now < nextSpinMs`, whatever the button does, makes no
re-sample and changes neither the values nor `nextSpinMs` nor `start`. -/
theorem pacing_from_first_tick :
    (∀ (p : Poll) (s : State), s.appState = AppState.STATE_PLAY →
      Ev.startRolling ∈ (loop p s).2 →
      (loop p s).1.rollingStartMs = millis p.tStart ∧
      values (loop p s).1 = sampled p.rnd s.mode ∧
      (loop p s).1.start = millis p.tAnim ∧
      (loop p s).1.nextSpinMs = add32 (millis p.tAnim) 70) ∧
    (∀ (p : Poll) (s : State), s.appState = AppState.STATE_PLAY → s.rolling = true →
      NoPress (loop p s).2 → s.nextSpinMs ≤ millis p.tAnim →
      values (loop p s).1 = sampled p.rnd s.mode ∧
      (Ev.stepColor ∈ (loop p s).2 ∨ Ev.stepDice ∈ (loop p s).2) ∧
      (loop p s).1.start = (if s.nextSpinMs = 0 then millis p.tAnim else s.start) ∧
      (loop p s).1.nextSpinMs = add32 (millis p.tAnim)
        (if sub32 (millis p.tAnim) (loop p s).1.start < 800 then 70 else 110)) ∧
    (∀ (p : Poll) (s : State), s.appState = AppState.STATE_PLAY → s.rolling = true →
      ¬ s.nextSpinMs ≤ millis p.tAnim →
      values (loop p s).1 = values s ∧
      Ev.stepColor ∉ (loop p s).2 ∧ Ev.stepDice ∉ (loop p s).2 ∧
      (loop p s).1.start = s.start ∧
      (loop p s).1.nextSpinMs = s.nextSpinMs) := by
  refine ⟨?_, ?_, ?_⟩
  · intro p s hP hS
    rw [loop_start p s hP hS]
    obtain ⟨a1, a2, a3, -⟩ := animate_due p (startRolling (millis p.tStart)
      (buttonShortPressed p.down (millis p.tShort) s).2).1
      (by simp [startRolling, hP]) (by simp [startRolling]) (by simp [startRolling])
    obtain ⟨-, b2, -⟩ := animate_lock p (startRolling (millis p.tStart)
      (buttonShortPressed p.down (millis p.tShort) s).2).1 (by simp [startRolling, hP])
    refine ⟨?_, ?_, ?_, ?_⟩
    · rw [b2]
      simp [startRolling]
    · rw [a1]
      simp [startRolling]
    · rw [a2]
      simp [startRolling]
    · rw [a3]
      simp [startRolling, sub32_self]
  · intro p s hP hr hq hd
    rw [loop_quiet p s hP hq]
    obtain ⟨a1, a2, a3, a4⟩ := animate_due p (buttonShortPressed p.down (millis p.tShort) s).2
      (by simp [hP]) (by simp [hr]) (by simpa using hd)
    simp only [buttonShortPressed_frame] at a1 a2 a3
    refine ⟨a1, ?_, a2, ?_⟩
    · rcases a4 with h | h
      · left
        simp [h]
      · right
        simp [h]
    · show (animate p _).1.nextSpinMs = add32 _ (if sub32 _ (animate p _).1.start < 800 then _ else _)
      rw [a3, a2]
  · intro p s hP hr hd
    by_cases hq : NoPress (loop p s).2
    · rw [loop_quiet p s hP hq]
      obtain ⟨a1, a2, a3, a4, a5⟩ :=
        animate_wait p (buttonShortPressed p.down (millis p.tShort) s).2
          (by simp [hP]) (by simp [hr]) (by simpa using hd)
      simp only [buttonShortPressed_frame] at a2 a3
      refine ⟨?_, ?_, ?_, a2, a3⟩
      · rw [a1]
        simp [values]
      · simpa using a4
      · simpa using a5
    · by_cases hl : Ev.buttonLongPressed true ∈ (loop p s).2
      · obtain ⟨h0, hl2⟩ := long_mem p s hl
        rw [loop_long p s h0 hl2]
        simp [values]
      · have hs : Ev.buttonShortPressed true ∈ (loop p s).2 := by
          by_contra hs
          exact hq ⟨hl, hs⟩
        rw [loop_manual_stop p s hP hr hs]
        simp [values]

/-- Witness of C6 (amended): the due tick at 1800 ms of the roll whose first
tick read the clock at 1001 ms. -/
theorem pacing_from_first_tick_witness :
    (loop (pollAt 1800 false 9) (stateAfter skewedRoll)).1.nextSpinMs =
      add32 (millis (pollAt 1800 false 9).tAnim)
        (if sub32 (millis (pollAt 1800 false 9).tAnim)
            (loop (pollAt 1800 false 9) (stateAfter skewedRoll)).1.start < 800
          then 70 else 110) :=
  (pacing_from_first_tick.2.1 (pollAt 1800 false 9) (stateAfter skewedRoll)
    (by decide) (by decide) (by decide) (by decide)).2.2.2

end ColorGame
